import Mathlib

/-!
Verification of the AWS resource-inventory collector (cmdb).

Shallow embedding of the reconciliation / attribution / extraction code in
`src/services/*.py` and its orchestrators.  Python dictionaries of scalar
values are embedded as the `Value` universe below (scalars, lists of
strings and string-keyed dictionaries of strings: the only shapes that
occur in this repository's data).  Database tables are lists of rows, a
row being the association list `column ↦ value` that mirrors
`dict(zip(columns, row))` in the source.  `services/utils.py` is not part
of the sources; `get_db_connection` is modelled as an `Option` of the
relevant table and `log_change` as an append to a change-log list
(see the doc comments at their use sites).

String primitives are re-implemented over `List Char` so that every
definition evaluates inside the kernel (`String.trim`, `String.splitOn`
and friends are compiled with well-founded recursion and do not reduce).
-/

/-- Universe of Python values handled by this codebase: strings, ints,
booleans, `None`, lists of strings, string-keyed dicts of strings, and
rationals standing in for the one float that occurs (Athena's
execution-duration, millis divided by 1000). -/

inductive Value where
  | vStr (s : String)
  | vInt (n : Int)
  | vBool (b : Bool)
  | vNone
  | vList (xs : List String)
  | vDict (xs : List (String × String))
  | vRat (q : ℚ)
deriving Repr, DecidableEq

/-- Whitespace predicate used by Python `str.strip` / `str.split()`
(restricted to the ASCII whitespace that occurs here). -/

def isPyWs (c : Char) : Bool := c.isWhitespace

/-- Python `str.strip()` on a character list. -/

def stripChars (l : List Char) : List Char :=
  ((l.dropWhile isPyWs).reverse.dropWhile isPyWs).reverse

/-- Python `str.strip()`. -/

def pyStrip (s : String) : String := ⟨stripChars s.data⟩

/-- Python `str.split(sep)` for a one-character separator. -/

def splitChar (sep : Char) (l : List Char) : List (List Char) :=
  l.foldr (fun c segs =>
    if c = sep then [] :: segs
    else
      match segs with
      | [] => [[c]]
      | seg :: ss => (c :: seg) :: ss) [[]]

/-- Python `s.split(',')`. -/

def pySplitComma (s : String) : List String :=
  (splitChar ',' s.data).map (fun l => ⟨l⟩)

/-- Python `s.upper()` (ASCII). -/

def pyUpper (s : String) : String := ⟨s.data.map Char.toUpper⟩

/-- Python slicing `s[:n]` (by characters). -/

def pySlice (s : String) (n : Nat) : String := ⟨s.data.take n⟩

/-- Join a list of strings with a separator, Python `sep.join(xs)`. -/

def pyJoin (sep : String) : List String → String
  | [] => ""
  | [x] => x
  | x :: y :: rest => x ++ sep ++ pyJoin sep (y :: rest)

/-- Python `repr` of a string (single quotes, escaping not modelled:
no value in this development contains a quote). -/

def pyReprStr (s : String) : String := "\x27" ++ s ++ "\x27"

/-- Python `str(v)`.  Lists and dicts render their elements with `repr`
as CPython does.  `str` of a non-integral float is not modelled
faithfully (no claim depends on it); an integral rational renders with a
trailing `.0` like a Python float. -/

def pyStr : Value → String
  | .vStr s => s
  | .vInt n => toString n
  | .vBool true => "True"
  | .vBool false => "False"
  | .vNone => "None"
  | .vList xs => "[" ++ pyJoin ", " (xs.map pyReprStr) ++ "]"
  | .vDict xs =>
      "\x7b" ++ pyJoin ", " (xs.map (fun p => pyReprStr p.1 ++ ": " ++ pyReprStr p.2)) ++ "\x7d"
  | .vRat q => if q.den = 1 then toString q.num ++ ".0" else toString q.num ++ "/" ++ toString q.den

/-- Lexicographic comparison of character lists by code point: the order
Python uses to sort strings. -/

def charListLe : List Char → List Char → Bool
  | [], _ => true
  | _ :: _, [] => false
  | a :: as, b :: bs =>
      if a.toNat < b.toNat then true
      else if b.toNat < a.toNat then false
      else charListLe as bs

/-- String comparison `a <= b` as Python orders strings. -/

def pyStrLe (a b : String) : Bool := charListLe a.data b.data

/-- The ordering relation underlying `pyStrLe`, as a `Prop`. -/

def strLe (a b : String) : Prop := pyStrLe a b = true

/-- Insert into a sorted list of strings, keeping Python's sort order. -/

def insertStr (a : String) : List String → List String
  | [] => [a]
  | b :: bs => if pyStrLe a b = true then a :: b :: bs else b :: insertStr a bs

/-- Python `sorted` on a list of strings (insertion sort; Python's sort
produces the same list since string elements compare equal only when
identical). -/

def pySorted (l : List String) : List String := l.foldr insertStr []

/-- Embedding of `normalize_list_comparison(old_val, new_val)` from
`src/services/rds_functions.py` lines 18-23 (the same function appears
verbatim in `eks_functions.py` and `lambda_functions.py`): if the new
value is a list and the old one a list or a string, compare the
stripped, stringified elements after sorting (a stored string is first
split on commas, an empty one giving the empty list); otherwise compare
`str(old) == str(new)`. -/

def normalize_list_comparison (old_val new_val : Value) : Bool :=
  match new_val with
  | .vList ns =>
      match old_val with
      | .vList os =>
          decide (pySorted (os.map pyStrip) = pySorted (ns.map pyStrip))
      | .vStr s =>
          let old_list := if s = "" then [] else pySplitComma s
          decide (pySorted (old_list.map pyStrip) = pySorted (ns.map pyStrip))
      | _ => decide (pyStr old_val = pyStr (.vList ns))
  | _ => decide (pyStr old_val = pyStr new_val)

/-- Row of the `cloudtrail_events` table (and also the shape of a parsed
event produced by `get_cloudtrail_events`): see the CREATE TABLE in
`src/services/cloudtrail_functions.py` lines 282-296.  `event_time` is
an epoch-second timestamp; the JSONB `changes` blob is kept as its
serialized string. -/

structure CtEvent where
  event_id : String
  event_time : Int
  event_name : String
  event_source : String
  user_name : String
  resource_name : String
  resource_type : String
  region : String
  changes : String
deriving Repr, DecidableEq

/-- FIELD_EVENT_MAP of `src/services/rds_functions.py` lines 6-16, as the
lookup `FIELD_EVENT_MAP.get(field_name, [])`. -/

def FIELD_EVENT_MAP_RDS (field_name : String) : List String :=
  match field_name with
  | "dbname" => ["CreateDBInstance", "ModifyDBInstance"]
  | "enginetype" => ["CreateDBInstance"]
  | "engineversion" => ["ModifyDBInstance"]
  | "storagesize" => ["ModifyDBInstance"]
  | "instancetype" => ["ModifyDBInstance"]
  | "status" => ["StartDBInstance", "StopDBInstance", "RebootDBInstance", "CreateDBInstance", "DeleteDBInstance"]
  | "endpoint" => ["CreateDBInstance", "ModifyDBInstance"]
  | "port" => ["CreateDBInstance", "ModifyDBInstance"]
  | "hasreplica" => ["CreateDBInstanceReadReplica", "DeleteDBInstance"]
  | _ => []

/-- FIELD_EVENT_MAP of `src/services/eks_functions.py` lines 9-16. -/

def FIELD_EVENT_MAP_EKS (field_name : String) : List String :=
  match field_name with
  | "clustername" => ["CreateCluster", "UpdateClusterConfig"]
  | "status" => ["CreateCluster", "DeleteCluster", "UpdateClusterConfig"]
  | "kubernetesversion" => ["UpdateClusterVersion"]
  | "supportperiod" => ["UpdateClusterConfig"]
  | "addons" => ["CreateAddon", "DeleteAddon", "UpdateAddon"]
  | "tags" => ["TagResource", "UntagResource"]
  | _ => []

/-- FIELD_EVENT_MAP of `src/services/lambda_functions.py` lines 9-20. -/

def FIELD_EVENT_MAP_LAMBDA (field_name : String) : List String :=
  match field_name with
  | "functionname" => ["CreateFunction", "UpdateFunctionConfiguration"]
  | "description" => ["UpdateFunctionConfiguration"]
  | "handler" => ["UpdateFunctionConfiguration"]
  | "runtime" => ["UpdateFunctionConfiguration"]
  | "memorysize" => ["UpdateFunctionConfiguration"]
  | "timeout" => ["UpdateFunctionConfiguration"]
  | "role" => ["UpdateFunctionConfiguration"]
  | "environment" => ["UpdateFunctionConfiguration"]
  | "vpcconfig" => ["UpdateFunctionConfiguration"]
  | "tags" => ["TagResource", "UntagResource"]
  | _ => []

/-- One step of scanning for the row with the least key; the first row
seen wins ties, which fixes the row SQL may return arbitrarily among
equal `ORDER BY` keys. -/

def minStep (key : CtEvent → Int) (acc : Option CtEvent) (r : CtEvent) : Option CtEvent :=
  match acc with
  | none => some r
  | some b => if key r < key b then some r else some b

/-- Semantics of `ORDER BY key ASC LIMIT 1` over a result set. -/

def selectMinBy (key : CtEvent → Int) (rows : List CtEvent) : Option CtEvent :=
  rows.foldl (minStep key) none

/-- Embedding of `get_instance_changed_by(instance_id, field_name)` from
`src/services/rds_functions.py` lines 25-58.  `conn` is the
`get_db_connection()` result: `none` when no connection is available,
otherwise the `cloudtrail_events` table.  The two SQL queries become
filters over that table; `ORDER BY event_time DESC LIMIT 1` picks a row
with maximal `event_time`. -/

def get_instance_changed_by (conn : Option (List CtEvent)) (instance_id field_name : String) :
    String :=
  match conn with
  | none => "unknown"
  | some events =>
      let possible_events := FIELD_EVENT_MAP_RDS field_name
      let rows :=
        if possible_events ≠ [] then
          events.filter (fun e =>
            e.resource_name == instance_id && e.resource_type == "RDS" &&
            possible_events.contains e.event_name)
        else
          events.filter (fun e => e.resource_name == instance_id && e.resource_type == "RDS")
      match selectMinBy (fun e => -e.event_time) rows with
      | some r => r.user_name
      | none => "unknown"

/-- Embedding of `get_cluster_changed_by(cluster_name, field_name)` from
`src/services/eks_functions.py` lines 25-41.  The source line
`return cursor.fetchone()[0] if cursor.fetchone() else "unknown"`
calls `fetchone` twice: the conditional test consumes the only row the
`LIMIT 1` query can return, and the branch then fetches the next row,
`None`, whose `[0]` raises `TypeError`, caught by the bare `except`.
The model mirrors both fetches on the at-most-one-row result list. -/

def get_cluster_changed_by (conn : Option (List CtEvent)) (cluster_name field_name : String) :
    String :=
  match conn with
  | none => "unknown"
  | some events =>
      let evs := FIELD_EVENT_MAP_EKS field_name
      let rows :=
        if evs ≠ [] then
          events.filter (fun e =>
            e.resource_name == cluster_name && e.resource_type == "EKS" &&
            evs.contains e.event_name)
        else
          events.filter (fun e => e.resource_name == cluster_name && e.resource_type == "EKS")
      let fetched :=
        match selectMinBy (fun e => -e.event_time) rows with
        | some r => [r]
        | none => []
      match fetched with
      | [] => "unknown"
      | _ :: rest =>
          match rest with
          | r2 :: _ => r2.user_name
          | [] => "unknown"

/-- Embedding of `get_function_changed_by(function_name, field_name)` from
`src/services/lambda_functions.py` lines 29-45, with the same
double-`fetchone` control flow as `get_cluster_changed_by`. -/

def get_function_changed_by (conn : Option (List CtEvent)) (function_name field_name : String) :
    String :=
  match conn with
  | none => "unknown"
  | some events =>
      let evs := FIELD_EVENT_MAP_LAMBDA field_name
      let rows :=
        if evs ≠ [] then
          events.filter (fun e =>
            e.resource_name == function_name && e.resource_type == "LAMBDA" &&
            evs.contains e.event_name)
        else
          events.filter (fun e => e.resource_name == function_name && e.resource_type == "LAMBDA")
      let fetched :=
        match selectMinBy (fun e => -e.event_time) rows with
        | some r => [r]
        | none => []
      match fetched with
      | [] => "unknown"
      | _ :: rest =>
          match rest with
          | r2 :: _ => r2.user_name
          | [] => "unknown"

/-- Result set of the Athena attribution query of
`src/services/athena_functions.py` lines 13-18: events of type ATHENA for
the query id whose time is strictly within 24 hours (86400 seconds) of
`update_date`. -/

def athenaMatches (events : List CtEvent) (query_id : String) (update_date : Int) :
    List CtEvent :=
  events.filter (fun e =>
    e.resource_type == "ATHENA" && e.resource_name == query_id &&
    decide ((e.event_time - update_date).natAbs < 86400))

/-- The row `ORDER BY ABS(EXTRACT(EPOCH FROM (event_time - update_date))) ASC LIMIT 1`
returns. -/

def athenaSelect (events : List CtEvent) (query_id : String) (update_date : Int) :
    Option CtEvent :=
  selectMinBy (fun e => ((e.event_time - update_date).natAbs : Int))
    (athenaMatches events query_id update_date)

/-- Embedding of `get_query_changed_by(query_id, update_date)` from
`src/services/athena_functions.py` lines 5-27. -/

def get_query_changed_by (conn : Option (List CtEvent)) (query_id : String) (update_date : Int) :
    String :=
  match conn with
  | none => "unknown"
  | some events =>
      match athenaSelect events query_id update_date with
      | some r => r.user_name
      | none => "unknown"

/-- Result dictionary of `insert_or_update_cloudtrail_events`. -/

structure CtResult where
  inserted : Nat
  updated : Nat
  error : Option String
deriving Repr, DecidableEq

/-- One iteration of the insert loop of
`src/services/cloudtrail_functions.py` lines 300-325: the INSERT runs
`ON CONFLICT (event_id) DO NOTHING`, so a row is appended only when no
row with that `event_id` exists, and the `inserted` counter is bumped
either way (the statement itself succeeds). -/

def ctInsertStep (st : List CtEvent × Nat) (e : CtEvent) : List CtEvent × Nat :=
  if st.1.any (fun r => r.event_id == e.event_id) then (st.1, st.2 + 1)
  else (st.1 ++ [e], st.2 + 1)

/-- Embedding of `insert_or_update_cloudtrail_events(events)` from
`src/services/cloudtrail_functions.py` lines 258-336.  `dbAvailable`
models `get_db_connection()` succeeding; `table` is the
`cloudtrail_events` table (the lazy CREATE TABLE step is the model's
state already existing).  Returns the result dictionary and the table
after the loop. -/

def insert_or_update_cloudtrail_events (dbAvailable : Bool) (table : List CtEvent)
    (events : List CtEvent) : CtResult × List CtEvent :=
  if events = [] then ({ inserted := 0, updated := 0, error := none }, table)
  else if dbAvailable = false then
    ({ inserted := 0, updated := 0, error := some "No se pudo conectar a la base de datos" },
      table)
  else
    let st := events.foldl ctInsertStep (table, 0)
    ({ inserted := st.2, updated := 0, error := none }, st.1)

/-- Number of rows of `t` carrying the event id `id`. -/

def countId (t : List CtEvent) (id : String) : Nat :=
  (t.filter (fun r => r.event_id == id)).length

/-- Does `"FROM"` occur in the character list?  Python `"FROM" in s`. -/

def containsFROM : List Char → Bool
  | 'F' :: 'R' :: 'O' :: 'M' :: _ => true
  | _ :: rest => containsFROM rest
  | [] => false

/-- Python `s.split("FROM")` (leftmost, non-overlapping). -/

def splitFROM : List Char → List (List Char)
  | 'F' :: 'R' :: 'O' :: 'M' :: rest => [] :: splitFROM rest
  | c :: rest =>
      match splitFROM rest with
      | [] => [[c]]
      | seg :: segs => (c :: seg) :: segs
  | [] => [[]]

/-- First whitespace-separated word, Python `s.split()[0]`; `none` when
`split()` is empty and the indexing raises `IndexError`. -/

def firstWord (l : List Char) : Option (List Char) :=
  match l.dropWhile isPyWs with
  | [] => none
  | c :: rest => some ((c :: rest).takeWhile (fun d => !(isPyWs d)))

/-- ResourceSnapshot produced by `extract_rds_data`
(`src/services/rds_functions.py` lines 60-76). -/

structure RdsSnapshot where
  AccountName : Value
  AccountID : Value
  DbInstanceId : Value
  DbName : Value
  EngineType : Value
  EngineVersion : Value
  StorageSize : Value
  InstanceType : Value
  Status : Value
  Region : Value
  Endpoint : Value
  Port : Value
  HasReplica : Value
deriving Repr, DecidableEq

/-- The `Endpoint` sub-dictionary of a raw `DescribeDBInstances` record. -/

structure RawRdsEndpoint where
  address : Option String
  port : Option Int
deriving Repr

/-- Raw provider record consumed by `extract_rds_data`: mandatory keys are
plain fields, optional keys are `Option`s. -/

structure RawRdsInstance where
  dbInstanceIdentifier : String
  dbName : Option String
  engine : String
  engineVersion : Option String
  allocatedStorage : Option Int
  dbInstanceClass : String
  dbInstanceStatus : String
  endpoint : Option RawRdsEndpoint
  readReplicaDBInstanceIdentifiers : List String
deriving Repr

/-- Embedding of `extract_rds_data(db, account_name, account_id, region)`
from `src/services/rds_functions.py` lines 60-76.  No field is
truncated; absent optional keys default to `"N/A"`, and `HasReplica` is
the truthiness of the replica list. -/

def extract_rds_data (db : RawRdsInstance) (account_name account_id region : String) :
    RdsSnapshot :=
  let endpoint := db.endpoint
  { AccountName := .vStr account_name
    AccountID := .vStr account_id
    DbInstanceId := .vStr db.dbInstanceIdentifier
    DbName := .vStr (db.dbName.getD "N/A")
    EngineType := .vStr db.engine
    EngineVersion := .vStr (db.engineVersion.getD "N/A")
    StorageSize :=
      match db.allocatedStorage with
      | some n => .vInt n
      | none => .vStr "N/A"
    InstanceType := .vStr db.dbInstanceClass
    Status := .vStr db.dbInstanceStatus
    Region := .vStr region
    Endpoint := .vStr (match endpoint with
      | some ep => ep.address.getD "N/A"
      | none => "N/A")
    Port :=
      match endpoint with
      | some ep =>
          match ep.port with
          | some p => .vInt p
          | none => .vStr "N/A"
      | none => .vStr "N/A"
    HasReplica := .vBool (decide (db.readReplicaDBInstanceIdentifiers ≠ [])) }

/-- ResourceSnapshot produced by `extract_query_data`
(`src/services/athena_functions.py` lines 29-69). -/

structure AthenaSnapshot where
  AccountName : Value
  AccountID : Value
  QueryId : Value
  QueryName : Value
  Domain : Value
  Description : Value
  Database : Value
  TablesUsed : Value
  ExecutionDuration : Value
  ExecutionFrequency : Value
  Owner : Value
  Region : Value
deriving Repr, DecidableEq

/-- Raw `QueryExecution` record consumed by `extract_query_data`; nested
lookups are flattened to the keys the function reads. -/

structure RawQueryExecution where
  queryExecutionId : String
  query : Option String
  database : Option String
  totalExecutionTimeInMillis : Option Int
  state : Option String
  workGroup : Option String
deriving Repr

/-- The `tables_used` computation of `src/services/athena_functions.py`
lines 38-43: if `"FROM"` occurs in the upper-cased query, the first word
after the first `FROM`, stripped, is the one extracted table.  `none`
models `parts[1].split()[0]` raising `IndexError` (text after the first
`FROM` all whitespace). -/
def athenaTablesUsed (query_string : String) : Option (List String) :=
  let up := pyUpper query_string
  if containsFROM up.data then
    match (splitFROM up.data).get? 1 with
    | none => some []
    | some p1 =>
        match firstWord p1 with
        | none => none
        | some w => some [pyStrip ⟨w⟩]
  else some []

/-- The snapshot record returned at
`src/services/athena_functions.py` lines 56-69, given the computed
`tables_used`.  Every string field is truncated with a slice; the
execution time is millis divided by 1000 (a float, modelled as a
rational). -/
def athenaSnapshotOf (qe : RawQueryExecution) (account_name account_id region : String)
    (tables_used : List String) : AthenaSnapshot :=
  let query_id := qe.queryExecutionId
  let query_string := qe.query.getD ""
  let database := qe.database.getD "N/A"
  let execution_time : ℚ := ((qe.totalExecutionTimeInMillis.getD 0 : Int) : ℚ) / 1000
  let owner := qe.workGroup.getD "primary"
  { AccountName := .vStr (pySlice account_name 255)
    AccountID := .vStr (pySlice account_id 20)
    QueryId := .vStr (pySlice query_id 255)
    QueryName := .vStr (pySlice ("Query-" ++ pySlice query_id 8) 255)
    Domain := .vStr (pySlice database 255)
    Description := .vStr (if query_string ≠ "" then pySlice query_string 500 else "N/A")
    Database := .vStr (pySlice database 255)
    TablesUsed :=
      .vStr (if tables_used ≠ [] then pySlice (pyJoin ", " tables_used) 500 else "N/A")
    ExecutionDuration := .vRat execution_time
    ExecutionFrequency := .vStr (pySlice "On-demand" 100)
    Owner := .vStr (pySlice owner 255)
    Region := .vStr (pySlice region 50) }

/-- Embedding of
`extract_query_data(query_execution, athena_client, account_name, account_id, region)`
from `src/services/athena_functions.py` lines 29-69, composed of the two
pieces above; the unused local `state` of the source is dropped. -/
def extract_query_data (qe : RawQueryExecution) (account_name account_id region : String) :
    Option AthenaSnapshot :=
  match athenaTablesUsed (qe.query.getD "") with
  | none => none
  | some tables_used => some (athenaSnapshotOf qe account_name account_id region tables_used)

/-- ResourceSnapshot produced by `extract_lambda_data`
(`src/services/lambda_functions.py` lines 47-93). -/

structure LambdaSnapshot where
  AccountName : Value
  AccountID : Value
  FunctionID : Value
  FunctionName : Value
  Description : Value
  Handler : Value
  Runtime : Value
  MemorySize : Value
  Timeout : Value
  Role : Value
  Environment : Value
  Triggers : Value
  VPCConfig : Value
  Region : Value
  Tags : Value
deriving Repr, DecidableEq

/-- Configuration keys read via `config.get(...)` in `extract_lambda_data`
(shared by the raw function record and the `get_function_configuration`
response, since the source falls back from one to the other). -/

structure RawLambdaConfig where
  description : Option String
  handler : Option String
  runtime : Option String
  memorySize : Option Int
  timeout : Option Int
  role : Option String
deriving Repr

/-- Raw function record consumed by `extract_lambda_data`. -/

structure RawLambdaFunction where
  functionName : String
  functionArn : Option String
  selfConfig : RawLambdaConfig
deriving Repr

/-- Successful `get_function_configuration` response, pre-digested to what
the source reads: the config keys, `VpcConfig.VpcId`, the subnet count
and the environment-variable count. -/

structure RawConfigCall where
  cfg : RawLambdaConfig
  vpcId : Option String
  subnetCount : Nat
  envVarCount : Nat
deriving Repr

/-- Embedding of `extract_lambda_data(function, lambda_client, ...)` from
`src/services/lambda_functions.py` lines 47-93.  The three AWS calls of
the source are inputs here; `none` for a call means its `try` block
raised, taking the documented fallback (`config = function`,
`vpc_info = "N/A"`, `env_vars = 0`, `triggers = 0`, `tags = {}`).  No
string field is truncated. -/

def extract_lambda_data (function : RawLambdaFunction) (configCall : Option RawConfigCall)
    (triggersCall : Option Nat) (tagsCall : Option (List (String × String)))
    (account_name account_id region : String) : LambdaSnapshot :=
  let function_name := function.functionName
  let config := match configCall with | some c => c.cfg | none => function.selfConfig
  let vpc_info :=
    match configCall with
    | some c =>
        match c.vpcId with
        | some vid => "VPC: " ++ vid ++ ", Subnets: " ++ toString c.subnetCount
        | none => "N/A"
    | none => "N/A"
  let env_vars : Nat := match configCall with | some c => c.envVarCount | none => 0
  let triggers := triggersCall.getD 0
  let tags := tagsCall.getD []
  { AccountName := .vStr account_name
    AccountID := .vStr account_id
    FunctionID := .vStr (match function.functionArn with
      | some arn => if arn ≠ "" then ⟨(splitChar ':' arn.data).getLastD []⟩ else function_name
      | none => function_name)
    FunctionName := .vStr function_name
    Description := .vStr (config.description.getD "N/A")
    Handler := .vStr (config.handler.getD "N/A")
    Runtime := .vStr (config.runtime.getD "N/A")
    MemorySize :=
      match config.memorySize with
      | some n => .vInt n
      | none => .vInt 0
    Timeout :=
      match config.timeout with
      | some n => .vInt n
      | none => .vInt 0
    Role := .vStr (match config.role with
      | some r => if r ≠ "" then ⟨(splitChar '/' r.data).getLastD []⟩ else "N/A"
      | none => "N/A")
    Environment := .vInt env_vars
    Triggers := .vInt triggers
    VPCConfig := .vStr vpc_info
    Region := .vStr region
    Tags := .vDict tags }

/-- ResourceSnapshot consumed by `insert_or_update_eks_data`, with the
keys produced by `extract_eks_data` (`src/services/eks_functions.py`
lines 43-66). -/

structure EksSnapshot where
  AccountName : Value
  AccountID : Value
  ClusterID : Value
  ClusterName : Value
  Status : Value
  KubernetesVersion : Value
  Provider : Value
  ClusterSecurityGroup : Value
  SupportPeriod : Value
  Addons : Value
  Tags : Value
deriving Repr, DecidableEq

/-- A stored row: the association list `column ↦ value` that
`dict(zip(columns, row))` builds from `SELECT *`, column names already
lowercased. -/

abbrev Row := List (String × Value)

/-- Python `db_row.get(col)`: `None` when the key is absent. -/

def rowGet (r : Row) (k : String) : Value :=
  match r.find? (fun p => p.1 == k) with
  | some p => p.2
  | none => Value.vNone

/-- SQL `SET k = v` on one row (a no-op when the column does not exist). -/

def rowSet (r : Row) (k : String) (v : Value) : Row :=
  r.map (fun p => if p.1 == k then (p.1, v) else p)

/-- Row of the change-log table.  Modelled from the spec:
`services/utils.py` is not among the sources; §6 of the spec specifies
`log_change(resource_type, resource_id, field, old, new, actor,
account_id, region)` writing one append-only audit row.  Each
`log_change` call in the engines below appends one such entry; the
writes go through `log_change`'s own connection, so they are not part of
the engine's transaction. -/

structure ChangeLogEntry where
  resource_type : String
  resource_id : String
  field : String
  old_value : Value
  new_value : Value
  changed_by : String
  account_id : Value
  region : Value
deriving Repr, DecidableEq

/-- Result dictionary of the `insert_or_update_<resource>_data`
functions. -/

structure ReconResult where
  error : Option String
  processed : Nat
  inserted : Nat
  updated : Nat
deriving Repr, DecidableEq

/-- Full outcome of one reconciliation call: the result dictionary, the
resource table after commit/rollback, the change-log rows appended by
`log_change` (separate connection, hence surviving a rollback), and
whether the engine's own connection was closed (the `finally:
conn.close()` of the source). -/

structure EngineOutcome where
  result : ReconResult
  table : List Row
  changeLog : List ChangeLogEntry
  connClosed : Bool
deriving Repr, DecidableEq

/-- Running state of a reconciliation loop.  `stmt` counts the SQL
statements executed on the engine's cursor so that a failure oracle can
make any given statement raise. -/

structure LoopSt where
  table : List Row
  log : List ChangeLogEntry
  inserted : Nat
  updated : Nat
  processed : Nat
  stmt : Nat
deriving Repr, DecidableEq

/-- Row written by the INSERT of `insert_or_update_rds_data`
(`src/services/rds_functions.py` lines 103-112): column order of the
statement, with `last_updated = NOW()`. -/

def rdsInsertRow (now : Int) (s : RdsSnapshot) : Row :=
  [("accountname", s.AccountName), ("accountid", s.AccountID),
   ("dbinstanceid", s.DbInstanceId), ("dbname", s.DbName),
   ("enginetype", s.EngineType), ("engineversion", s.EngineVersion),
   ("storagesize", s.StorageSize), ("instancetype", s.InstanceType),
   ("status", s.Status), ("region", s.Region), ("endpoint", s.Endpoint),
   ("port", s.Port), ("hasreplica", s.HasReplica), ("last_updated", .vInt now)]

/-- Lookup in the `existing_data` dictionary of
`src/services/rds_functions.py` line 125, keyed by
`(row["dbinstanceid"], row["accountid"])`; the dict comprehension lets
the last row win a duplicate key, hence the reversed search. -/

def rdsLookupExisting (table : List Row) (k : Value × Value) : Option Row :=
  table.reverse.find? (fun r =>
    decide (rowGet r "dbinstanceid" = k.1) && decide (rowGet r "accountid" = k.2))

/-- The identity test of `src/services/rds_functions.py` lines 164-165.
The source reads the stored dict with key `account_id`, but the `rds`
table's column is `accountid`, so `db_row.get('account_id')` is `None`. -/

def rdsIdentityChanged (db_row : Row) (s : RdsSnapshot) : Bool :=
  decide (¬ pyStr (rowGet db_row "account_id") = pyStr s.AccountID) ||
  decide (¬ pyStr (rowGet db_row "dbinstanceid") = pyStr s.DbInstanceId)

/-- The `campos` dictionary of `src/services/rds_functions.py`
lines 147-161, in source order. -/

def rdsCampos (s : RdsSnapshot) : List (String × Value) :=
  [("accountname", s.AccountName), ("accountid", s.AccountID),
   ("dbinstanceid", s.DbInstanceId), ("dbname", s.DbName),
   ("enginetype", s.EngineType), ("engineversion", s.EngineVersion),
   ("storagesize", s.StorageSize), ("instancetype", s.InstanceType),
   ("status", s.Status), ("region", s.Region), ("endpoint", s.Endpoint),
   ("port", s.Port), ("hasreplica", s.HasReplica)]

/-- Application of the UPDATE of `src/services/rds_functions.py`
lines 186-188: `UPDATE rds SET <changed cols>, last_updated = NOW()
WHERE dbinstanceid = %s` — the WHERE clause matches on the natural id
alone, with no account-id constraint. -/

def rdsApplyUpdate (now : Int) (instance_id : Value) (updates : List (String × Value))
    (table : List Row) : List Row :=
  table.map (fun r =>
    if decide (rowGet r "dbinstanceid" = instance_id) then
      rowSet (updates.foldl (fun rr cv => rowSet rr cv.1 cv.2) r) "last_updated" (.vInt now)
    else r)

/-- One iteration of the field-comparison loop of
`src/services/rds_functions.py` lines 171-181: skip the (misspelled)
identity columns, diff via `normalize_list_comparison`, and on a diff
resolve the actor and `log_change` the difference. -/

def rdsDiffStep (ctConn : Option (List CtEvent)) (s : RdsSnapshot) (db_row : Row)
    (acc : List (String × Value) × List ChangeLogEntry) (cv : String × Value) :
    List (String × Value) × List ChangeLogEntry :=
  if cv.1 = "account_id" ∨ cv.1 = "dbinstanceid" then acc
  else
    let old_val := rowGet db_row cv.1
    if normalize_list_comparison old_val cv.2 then acc
    else
      let changed_by := get_instance_changed_by ctConn (pyStr s.DbInstanceId) cv.1
      (acc.1 ++ [cv],
       acc.2 ++
         [{ resource_type := "RDS", resource_id := pyStr s.DbInstanceId, field := cv.1,
            old_value := old_val, new_value := cv.2, changed_by := changed_by,
            account_id := s.AccountID, region := s.Region }])

/-- Processing of one snapshot in the loop of
`src/services/rds_functions.py` lines 127-189.  An `error` return is a
raised statement (`failAt` true at the statement index); it carries the
change-log rows already written through `log_change`'s own connection. -/

def rdsProcessOne (failAt : Nat → Bool) (now : Int) (ctConn : Option (List CtEvent))
    (existingTable : List Row) (st : LoopSt) (s : RdsSnapshot) :
    Except (List ChangeLogEntry) LoopSt :=
  let st := { st with processed := st.processed + 1 }
  match rdsLookupExisting existingTable (s.DbInstanceId, s.AccountID) with
  | none =>
      if failAt st.stmt then .error st.log
      else .ok { st with table := st.table ++ [rdsInsertRow now s],
                         inserted := st.inserted + 1, stmt := st.stmt + 1 }
  | some db_row =>
      if rdsIdentityChanged db_row s then
        if failAt st.stmt then .error st.log
        else .ok { st with table := st.table ++ [rdsInsertRow now s],
                           inserted := st.inserted + 1, stmt := st.stmt + 1 }
      else
        let du := (rdsCampos s).foldl (rdsDiffStep ctConn s db_row) ([], [])
        let st := { st with log := st.log ++ du.2 }
        if failAt st.stmt then .error st.log
        else .ok { st with table := rdsApplyUpdate now s.DbInstanceId du.1 st.table,
                           updated := st.updated + 1, stmt := st.stmt + 1 }

/-- The loop over `rds_data`. -/

def rdsLoop (failAt : Nat → Bool) (now : Int) (ctConn : Option (List CtEvent))
    (existingTable : List Row) : LoopSt → List RdsSnapshot →
    Except (List ChangeLogEntry) LoopSt
  | st, [] => .ok st
  | st, s :: rest =>
      match rdsProcessOne failAt now ctConn existingTable st s with
      | .error l => .error l
      | .ok st2 => rdsLoop failAt now ctConn existingTable st2 rest

/-- Embedding of `insert_or_update_rds_data(rds_data)` from
`src/services/rds_functions.py` lines 95-203.  `conn` is the
`get_db_connection()` result (`none`: unavailable) holding the `rds`
table; `ctConn` is the connection the attribution resolver opens for
itself; `failAt` makes the statement with that cursor index raise.
Statement 0 is the `SELECT * FROM rds`.  A raised statement rolls the
transaction back (the returned table is the initial one) and yields the
error dictionary with zero counters; the connection is closed on every
path that opened one. -/

def insert_or_update_rds_data (failAt : Nat → Bool) (now : Int)
    (ctConn : Option (List CtEvent)) (conn : Option (List Row))
    (rds_data : List RdsSnapshot) : EngineOutcome :=
  if rds_data = [] then
    { result := ⟨none, 0, 0, 0⟩, table := conn.getD [], changeLog := [], connClosed := false }
  else
    match conn with
    | none =>
        { result := ⟨some "DB connection failed", 0, 0, 0⟩, table := [], changeLog := [],
          connClosed := false }
    | some t =>
        if failAt 0 then
          { result := ⟨some "exception", 0, 0, 0⟩, table := t, changeLog := [],
            connClosed := true }
        else
          match rdsLoop failAt now ctConn t ⟨t, [], 0, 0, 0, 1⟩ rds_data with
          | .ok st =>
              { result := ⟨none, st.processed, st.inserted, st.updated⟩, table := st.table,
                changeLog := st.log, connClosed := true }
          | .error l =>
              { result := ⟨some "exception", 0, 0, 0⟩, table := t, changeLog := l,
                connClosed := true }

/-- Row written by the INSERT of `insert_or_update_eks_data`
(`src/services/eks_functions.py` lines 105 and 117). -/

def eksInsertRow (now : Int) (s : EksSnapshot) : Row :=
  [("accountname", s.AccountName), ("accountid", s.AccountID),
   ("clusterid", s.ClusterID), ("clustername", s.ClusterName),
   ("status", s.Status), ("kubernetesversion", s.KubernetesVersion),
   ("provider", s.Provider), ("clustersecuritygroup", s.ClusterSecurityGroup),
   ("supportperiod", s.SupportPeriod), ("addons", s.Addons), ("tags", s.Tags),
   ("last_updated", .vInt now)]

/-- Lookup in the `existing` dictionary of `src/services/eks_functions.py`
line 97, keyed by `(clustername, accountid)`. -/

def eksLookupExisting (table : List Row) (k : Value × Value) : Option Row :=
  table.reverse.find? (fun r =>
    decide (rowGet r "clustername" = k.1) && decide (rowGet r "accountid" = k.2))

/-- The identity test of `src/services/eks_functions.py` lines 114-115,
which reads the correctly-spelled stored columns. -/

def eksIdentityChanged (db_row : Row) (s : EksSnapshot) : Bool :=
  decide (¬ pyStr (rowGet db_row "accountid") = pyStr s.AccountID) ||
  decide (¬ pyStr (rowGet db_row "clustername") = pyStr s.ClusterName)

/-- The `campos` dictionary of `src/services/eks_functions.py` line 111. -/

def eksCampos (s : EksSnapshot) : List (String × Value) :=
  [("accountname", s.AccountName), ("accountid", s.AccountID),
   ("clusterid", s.ClusterID), ("clustername", s.ClusterName),
   ("status", s.Status), ("kubernetesversion", s.KubernetesVersion),
   ("provider", s.Provider), ("clustersecuritygroup", s.ClusterSecurityGroup),
   ("supportperiod", s.SupportPeriod), ("addons", s.Addons), ("tags", s.Tags)]

/-- Application of the UPDATE of `src/services/eks_functions.py`
line 133: `UPDATE eks SET <changed cols>, last_updated = NOW() WHERE
clustername = %s` — matched on the natural id alone. -/

def eksApplyUpdate (now : Int) (cluster_name : Value) (updates : List (String × Value))
    (table : List Row) : List Row :=
  table.map (fun r =>
    if decide (rowGet r "clustername" = cluster_name) then
      rowSet (updates.foldl (fun rr cv => rowSet rr cv.1 cv.2) r) "last_updated" (.vInt now)
    else r)

/-- One iteration of the field-comparison loop of
`src/services/eks_functions.py` lines 121-130. -/

def eksDiffStep (ctConn : Option (List CtEvent)) (s : EksSnapshot) (db_row : Row)
    (acc : List (String × Value) × List ChangeLogEntry) (cv : String × Value) :
    List (String × Value) × List ChangeLogEntry :=
  if cv.1 = "accountid" ∨ cv.1 = "clustername" then acc
  else
    let old_val := rowGet db_row cv.1
    if normalize_list_comparison old_val cv.2 then acc
    else
      let changed_by := get_cluster_changed_by ctConn (pyStr s.ClusterName) cv.1
      (acc.1 ++ [cv],
       acc.2 ++
         [{ resource_type := "EKS", resource_id := pyStr s.ClusterName, field := cv.1,
            old_value := old_val, new_value := cv.2, changed_by := changed_by,
            account_id := s.AccountID, region := .vStr "N/A" }])

/-- Processing of one snapshot in the loop of
`src/services/eks_functions.py` lines 99-134.  Unlike RDS, the UPDATE
only runs when some field differed. -/

def eksProcessOne (failAt : Nat → Bool) (now : Int) (ctConn : Option (List CtEvent))
    (existingTable : List Row) (st : LoopSt) (s : EksSnapshot) :
    Except (List ChangeLogEntry) LoopSt :=
  let st := { st with processed := st.processed + 1 }
  match eksLookupExisting existingTable (s.ClusterName, s.AccountID) with
  | none =>
      if failAt st.stmt then .error st.log
      else .ok { st with table := st.table ++ [eksInsertRow now s],
                         inserted := st.inserted + 1, stmt := st.stmt + 1 }
  | some db_row =>
      if eksIdentityChanged db_row s then
        if failAt st.stmt then .error st.log
        else .ok { st with table := st.table ++ [eksInsertRow now s],
                           inserted := st.inserted + 1, stmt := st.stmt + 1 }
      else
        let du := (eksCampos s).foldl (eksDiffStep ctConn s db_row) ([], [])
        let st := { st with log := st.log ++ du.2 }
        if du.1 = [] then .ok st
        else if failAt st.stmt then .error st.log
        else .ok { st with table := eksApplyUpdate now s.ClusterName du.1 st.table,
                           updated := st.updated + 1, stmt := st.stmt + 1 }

/-- The loop over `eks_data`. -/

def eksLoop (failAt : Nat → Bool) (now : Int) (ctConn : Option (List CtEvent))
    (existingTable : List Row) : LoopSt → List EksSnapshot →
    Except (List ChangeLogEntry) LoopSt
  | st, [] => .ok st
  | st, s :: rest =>
      match eksProcessOne failAt now ctConn existingTable st s with
      | .error l => .error l
      | .ok st2 => eksLoop failAt now ctConn existingTable st2 rest

/-- Embedding of `insert_or_update_eks_data(eks_data)` from
`src/services/eks_functions.py` lines 85-142, with the same conventions
as `insert_or_update_rds_data`. -/

def insert_or_update_eks_data (failAt : Nat → Bool) (now : Int)
    (ctConn : Option (List CtEvent)) (conn : Option (List Row))
    (eks_data : List EksSnapshot) : EngineOutcome :=
  if eks_data = [] then
    { result := ⟨none, 0, 0, 0⟩, table := conn.getD [], changeLog := [], connClosed := false }
  else
    match conn with
    | none =>
        { result := ⟨some "DB connection failed", 0, 0, 0⟩, table := [], changeLog := [],
          connClosed := false }
    | some t =>
        if failAt 0 then
          { result := ⟨some "exception", 0, 0, 0⟩, table := t, changeLog := [],
            connClosed := true }
        else
          match eksLoop failAt now ctConn t ⟨t, [], 0, 0, 0, 1⟩ eks_data with
          | .ok st =>
              { result := ⟨none, st.processed, st.inserted, st.updated⟩, table := st.table,
                changeLog := st.log, connClosed := true }
          | .error l =>
              { result := ⟨some "exception", 0, 0, 0⟩, table := t, changeLog := l,
                connClosed := true }

/-- Row written by the INSERT of `insert_or_update_lambda_data`
(`src/services/lambda_functions.py` lines 131 and 143). -/

def lambdaInsertRow (now : Int) (s : LambdaSnapshot) : Row :=
  [("accountname", s.AccountName), ("accountid", s.AccountID),
   ("functionid", s.FunctionID), ("functionname", s.FunctionName),
   ("description", s.Description), ("handler", s.Handler),
   ("runtime", s.Runtime), ("memorysize", s.MemorySize),
   ("timeout", s.Timeout), ("role", s.Role), ("environment", s.Environment),
   ("triggers", s.Triggers), ("vpcconfig", s.VPCConfig), ("region", s.Region),
   ("tags", s.Tags), ("last_updated", .vInt now)]

/-- Lookup in the `existing` dictionary of
`src/services/lambda_functions.py` line 123, keyed by
`(functionname, accountid)`. -/

def lambdaLookupExisting (table : List Row) (k : Value × Value) : Option Row :=
  table.reverse.find? (fun r =>
    decide (rowGet r "functionname" = k.1) && decide (rowGet r "accountid" = k.2))

/-- The identity test of `src/services/lambda_functions.py`
lines 140-141. -/

def lambdaIdentityChanged (db_row : Row) (s : LambdaSnapshot) : Bool :=
  decide (¬ pyStr (rowGet db_row "accountid") = pyStr s.AccountID) ||
  decide (¬ pyStr (rowGet db_row "functionname") = pyStr s.FunctionName)

/-- The `campos` dictionary of `src/services/lambda_functions.py`
line 137. -/

def lambdaCampos (s : LambdaSnapshot) : List (String × Value) :=
  [("accountname", s.AccountName), ("accountid", s.AccountID),
   ("functionid", s.FunctionID), ("functionname", s.FunctionName),
   ("description", s.Description), ("handler", s.Handler),
   ("runtime", s.Runtime), ("memorysize", s.MemorySize),
   ("timeout", s.Timeout), ("role", s.Role), ("environment", s.Environment),
   ("triggers", s.Triggers), ("vpcconfig", s.VPCConfig), ("region", s.Region),
   ("tags", s.Tags)]

/-- Application of the UPDATE of `src/services/lambda_functions.py`
line 159: `WHERE functionname = %s`, natural id alone. -/

def lambdaApplyUpdate (now : Int) (function_name : Value) (updates : List (String × Value))
    (table : List Row) : List Row :=
  table.map (fun r =>
    if decide (rowGet r "functionname" = function_name) then
      rowSet (updates.foldl (fun rr cv => rowSet rr cv.1 cv.2) r) "last_updated" (.vInt now)
    else r)

/-- One iteration of the field-comparison loop of
`src/services/lambda_functions.py` lines 147-156. -/

def lambdaDiffStep (ctConn : Option (List CtEvent)) (s : LambdaSnapshot) (db_row : Row)
    (acc : List (String × Value) × List ChangeLogEntry) (cv : String × Value) :
    List (String × Value) × List ChangeLogEntry :=
  if cv.1 = "accountid" ∨ cv.1 = "functionname" then acc
  else
    let old_val := rowGet db_row cv.1
    if normalize_list_comparison old_val cv.2 then acc
    else
      let changed_by := get_function_changed_by ctConn (pyStr s.FunctionName) cv.1
      (acc.1 ++ [cv],
       acc.2 ++
         [{ resource_type := "LAMBDA", resource_id := pyStr s.FunctionName, field := cv.1,
            old_value := old_val, new_value := cv.2, changed_by := changed_by,
            account_id := s.AccountID, region := s.Region }])

/-- Processing of one snapshot in the loop of
`src/services/lambda_functions.py` lines 125-160; as for EKS, the UPDATE
only runs when some field differed. -/

def lambdaProcessOne (failAt : Nat → Bool) (now : Int) (ctConn : Option (List CtEvent))
    (existingTable : List Row) (st : LoopSt) (s : LambdaSnapshot) :
    Except (List ChangeLogEntry) LoopSt :=
  let st := { st with processed := st.processed + 1 }
  match lambdaLookupExisting existingTable (s.FunctionName, s.AccountID) with
  | none =>
      if failAt st.stmt then .error st.log
      else .ok { st with table := st.table ++ [lambdaInsertRow now s],
                         inserted := st.inserted + 1, stmt := st.stmt + 1 }
  | some db_row =>
      if lambdaIdentityChanged db_row s then
        if failAt st.stmt then .error st.log
        else .ok { st with table := st.table ++ [lambdaInsertRow now s],
                           inserted := st.inserted + 1, stmt := st.stmt + 1 }
      else
        let du := (lambdaCampos s).foldl (lambdaDiffStep ctConn s db_row) ([], [])
        let st := { st with log := st.log ++ du.2 }
        if du.1 = [] then .ok st
        else if failAt st.stmt then .error st.log
        else .ok { st with table := lambdaApplyUpdate now s.FunctionName du.1 st.table,
                           updated := st.updated + 1, stmt := st.stmt + 1 }

/-- The loop over `lambda_data`. -/

def lambdaLoop (failAt : Nat → Bool) (now : Int) (ctConn : Option (List CtEvent))
    (existingTable : List Row) : LoopSt → List LambdaSnapshot →
    Except (List ChangeLogEntry) LoopSt
  | st, [] => .ok st
  | st, s :: rest =>
      match lambdaProcessOne failAt now ctConn existingTable st s with
      | .error l => .error l
      | .ok st2 => lambdaLoop failAt now ctConn existingTable st2 rest

/-- Embedding of `insert_or_update_lambda_data(lambda_data)` from
`src/services/lambda_functions.py` lines 111-168. -/

def insert_or_update_lambda_data (failAt : Nat → Bool) (now : Int)
    (ctConn : Option (List CtEvent)) (conn : Option (List Row))
    (lambda_data : List LambdaSnapshot) : EngineOutcome :=
  if lambda_data = [] then
    { result := ⟨none, 0, 0, 0⟩, table := conn.getD [], changeLog := [], connClosed := false }
  else
    match conn with
    | none =>
        { result := ⟨some "DB connection failed", 0, 0, 0⟩, table := [], changeLog := [],
          connClosed := false }
    | some t =>
        if failAt 0 then
          { result := ⟨some "exception", 0, 0, 0⟩, table := t, changeLog := [],
            connClosed := true }
        else
          match lambdaLoop failAt now ctConn t ⟨t, [], 0, 0, 0, 1⟩ lambda_data with
          | .ok st =>
              { result := ⟨none, st.processed, st.inserted, st.updated⟩, table := st.table,
                changeLog := st.log, connClosed := true }
          | .error l =>
              { result := ⟨some "exception", 0, 0, 0⟩, table := t, changeLog := l,
                connClosed := true }

/-- Row written by the INSERT of `insert_or_update_athena_data`
(`src/services/athena_functions.py` lines 108-116): this table's columns
are spelled with underscores. -/

def athenaInsertRow (now : Int) (s : AthenaSnapshot) : Row :=
  [("account_name", s.AccountName), ("account_id", s.AccountID),
   ("query_id", s.QueryId), ("query_name", s.QueryName),
   ("domain", s.Domain), ("description", s.Description),
   ("database_name", s.Database), ("tables_used", s.TablesUsed),
   ("execution_duration", s.ExecutionDuration),
   ("execution_frequency", s.ExecutionFrequency), ("owner", s.Owner),
   ("region", s.Region), ("last_updated", .vInt now)]

/-- Lookup in the `existing_data` dictionary of
`src/services/athena_functions.py` line 128, keyed by
`(query_id, account_id)`. -/

def athenaLookupExisting (table : List Row) (k : Value × Value) : Option Row :=
  table.reverse.find? (fun r =>
    decide (rowGet r "query_id" = k.1) && decide (rowGet r "account_id" = k.2))

/-- The identity test of `src/services/athena_functions.py`
lines 165-166; here `account_id`/`query_id` are the real column names. -/

def athenaIdentityChanged (db_row : Row) (s : AthenaSnapshot) : Bool :=
  decide (¬ pyStr (rowGet db_row "account_id") = pyStr s.AccountID) ||
  decide (¬ pyStr (rowGet db_row "query_id") = pyStr s.QueryId)

/-- The `campos` dictionary of `src/services/athena_functions.py`
lines 149-162. -/

def athenaCampos (s : AthenaSnapshot) : List (String × Value) :=
  [("account_name", s.AccountName), ("account_id", s.AccountID),
   ("query_id", s.QueryId), ("query_name", s.QueryName),
   ("domain", s.Domain), ("description", s.Description),
   ("database_name", s.Database), ("tables_used", s.TablesUsed),
   ("execution_duration", s.ExecutionDuration),
   ("execution_frequency", s.ExecutionFrequency), ("owner", s.Owner),
   ("region", s.Region)]

/-- Application of the UPDATE of `src/services/athena_functions.py`
lines 187-189: `WHERE query_id = %s AND account_id = %s` — the only
engine whose WHERE clause constrains both identity columns. -/

def athenaApplyUpdate (now : Int) (query_id account_id : Value)
    (updates : List (String × Value)) (table : List Row) : List Row :=
  table.map (fun r =>
    if decide (rowGet r "query_id" = query_id) && decide (rowGet r "account_id" = account_id) then
      rowSet (updates.foldl (fun rr cv => rowSet rr cv.1 cv.2) r) "last_updated" (.vInt now)
    else r)

/-- One iteration of the field-comparison loop of
`src/services/athena_functions.py` lines 172-182: plain
`str(old) != str(new)` comparison (no list normalization), actor looked
up by time proximity to `datetime.now()` (the `nowDT` parameter). -/

def athenaDiffStep (ctConn : Option (List CtEvent)) (nowDT : Int) (s : AthenaSnapshot)
    (db_row : Row) (acc : List (String × Value) × List ChangeLogEntry)
    (cv : String × Value) : List (String × Value) × List ChangeLogEntry :=
  if cv.1 = "account_id" ∨ cv.1 = "query_id" then acc
  else
    let old_val := rowGet db_row cv.1
    if decide (pyStr old_val = pyStr cv.2) then acc
    else
      let changed_by := get_query_changed_by ctConn (pyStr s.QueryId) nowDT
      (acc.1 ++ [cv],
       acc.2 ++
         [{ resource_type := "ATHENA", resource_id := pyStr s.QueryId, field := cv.1,
            old_value := old_val, new_value := cv.2, changed_by := changed_by,
            account_id := s.AccountID, region := s.Region }])

/-- Processing of one snapshot in the loop of
`src/services/athena_functions.py` lines 130-190.  As for RDS, the
unconditional `updates.append("last_updated = CURRENT_TIMESTAMP")` makes
the UPDATE run (and `updated` increment) even with no field diff. -/

def athenaProcessOne (failAt : Nat → Bool) (now nowDT : Int) (ctConn : Option (List CtEvent))
    (existingTable : List Row) (st : LoopSt) (s : AthenaSnapshot) :
    Except (List ChangeLogEntry) LoopSt :=
  let st := { st with processed := st.processed + 1 }
  match athenaLookupExisting existingTable (s.QueryId, s.AccountID) with
  | none =>
      if failAt st.stmt then .error st.log
      else .ok { st with table := st.table ++ [athenaInsertRow now s],
                         inserted := st.inserted + 1, stmt := st.stmt + 1 }
  | some db_row =>
      if athenaIdentityChanged db_row s then
        if failAt st.stmt then .error st.log
        else .ok { st with table := st.table ++ [athenaInsertRow now s],
                           inserted := st.inserted + 1, stmt := st.stmt + 1 }
      else
        let du := (athenaCampos s).foldl (athenaDiffStep ctConn nowDT s db_row) ([], [])
        let st := { st with log := st.log ++ du.2 }
        if failAt st.stmt then .error st.log
        else .ok { st with table := athenaApplyUpdate now s.QueryId s.AccountID du.1 st.table,
                           updated := st.updated + 1, stmt := st.stmt + 1 }

/-- The loop over `athena_data`. -/

def athenaLoop (failAt : Nat → Bool) (now nowDT : Int) (ctConn : Option (List CtEvent))
    (existingTable : List Row) : LoopSt → List AthenaSnapshot →
    Except (List ChangeLogEntry) LoopSt
  | st, [] => .ok st
  | st, s :: rest =>
      match athenaProcessOne failAt now nowDT ctConn existingTable st s with
      | .error l => .error l
      | .ok st2 => athenaLoop failAt now nowDT ctConn existingTable st2 rest

/-- Embedding of `insert_or_update_athena_data(athena_data)` from
`src/services/athena_functions.py` lines 99-204.  `nowDT` is the
`datetime.now()` the diff loop hands to `get_query_changed_by`. -/

def insert_or_update_athena_data (failAt : Nat → Bool) (now nowDT : Int)
    (ctConn : Option (List CtEvent)) (conn : Option (List Row))
    (athena_data : List AthenaSnapshot) : EngineOutcome :=
  if athena_data = [] then
    { result := ⟨none, 0, 0, 0⟩, table := conn.getD [], changeLog := [], connClosed := false }
  else
    match conn with
    | none =>
        { result := ⟨some "DB connection failed", 0, 0, 0⟩, table := [], changeLog := [],
          connClosed := false }
    | some t =>
        if failAt 0 then
          { result := ⟨some "exception", 0, 0, 0⟩, table := t, changeLog := [],
            connClosed := true }
        else
          match athenaLoop failAt now nowDT ctConn t ⟨t, [], 0, 0, 0, 1⟩ athena_data with
          | .ok st =>
              { result := ⟨none, st.processed, st.inserted, st.updated⟩, table := st.table,
                changeLog := st.log, connClosed := true }
          | .error l =>
              { result := ⟨some "exception", 0, 0, 0⟩, table := t, changeLog := l,
                connClosed := true }

/-- Length of the string carried by a `Value` (0 for non-strings); used to
state truncation bounds. -/
def vStrLen : Value → Nat
  | .vStr s => s.length
  | _ => 0

/-- Snapshot of the end-to-end RDS scenario: identity (db-1, 111), Status
available, EngineType postgres; the remaining mandatory extractor fields
hold representative values. -/
def c1_snap1 : RdsSnapshot :=
  { AccountName := .vStr "acct", AccountID := .vStr "111", DbInstanceId := .vStr "db-1",
    DbName := .vStr "N/A", EngineType := .vStr "postgres", EngineVersion := .vStr "14",
    StorageSize := .vInt 100, InstanceType := .vStr "db.t3.micro",
    Status := .vStr "available", Region := .vStr "us-east-1", Endpoint := .vStr "ep",
    Port := .vInt 5432, HasReplica := .vBool false }

/-- The rerun snapshot: Status changed to stopped. -/
def c1_snap2 : RdsSnapshot := { c1_snap1 with Status := .vStr "stopped" }

/-- First reconciliation, against empty storage. -/
def c1_run1 : EngineOutcome :=
  insert_or_update_rds_data (fun _ => false) 10 (some []) (some []) [c1_snap1]

/-- Second reconciliation, against the storage the first run produced. -/
def c1_run2 : EngineOutcome :=
  insert_or_update_rds_data (fun _ => false) 20 (some []) (some c1_run1.table) [c1_snap2]

/-- A well-formed stored RDS state: one row, inserted by the engine itself. -/
def c2_snap : RdsSnapshot :=
  { AccountName := .vStr "acct", AccountID := .vStr "222", DbInstanceId := .vStr "db-2",
    DbName := .vStr "mydb", EngineType := .vStr "mysql", EngineVersion := .vStr "8",
    StorageSize := .vInt 50, InstanceType := .vStr "db.t3.small",
    Status := .vStr "available", Region := .vStr "us-east-1", Endpoint := .vStr "ep2",
    Port := .vInt 3306, HasReplica := .vBool false }

/-- The stored row matching `c2_snap`. -/
def c2_row : Row := rdsInsertRow 5 c2_snap

/-- The one-row rds table. -/
def c2_table : List Row := [c2_row]

/-- Reconciling the unchanged snapshot against its own stored row. -/
def c2_run : EngineOutcome :=
  insert_or_update_rds_data (fun _ => false) 20 (some []) (some c2_table) [c2_snap]

/-- Athena snapshot for the C2 witness. -/
def c2w_snap : AthenaSnapshot :=
  { AccountName := .vStr "acct", AccountID := .vStr "333", QueryId := .vStr "q-7",
    QueryName := .vStr "Query-q-7", Domain := .vStr "d", Description := .vStr "N/A",
    Database := .vStr "d", TablesUsed := .vStr "N/A", ExecutionDuration := .vRat 1,
    ExecutionFrequency := .vStr "On-demand", Owner := .vStr "primary",
    Region := .vStr "us-east-1" }

/-- The stored athena row matching `c2w_snap`. -/
def c2w_row : Row := athenaInsertRow 5 c2w_snap

/-- Stored RDS CloudTrail events: `bob` started the instance at t=100 (an
event mapped to field `status`), `carol` tagged it at t=200 (not mapped
to `status`). -/
def c3_rds_events : List CtEvent :=
  [⟨"e1", 100, "StartDBInstance", "rds.amazonaws.com", "bob", "db-1", "RDS", "us-east-1", ""⟩,
   ⟨"e2", 200, "AddTagsToResource", "rds.amazonaws.com", "carol", "db-1", "RDS", "us-east-1", ""⟩]

/-- One stored EKS event whose actor `alice` is the top (and only) match
for field `status` of cluster c1. -/
def c3_eks_events : List CtEvent :=
  [⟨"e3", 100, "CreateCluster", "eks.amazonaws.com", "alice", "c1", "EKS", "us-east-1", ""⟩]

/-- One stored Lambda event whose actor `alice` is the top match for field
`runtime` of function f1. -/
def c3_lam_events : List CtEvent :=
  [⟨"e4", 100, "UpdateFunctionConfiguration", "lambda.amazonaws.com", "alice", "f1",
    "LAMBDA", "us-east-1", ""⟩]

/-- Base EKS snapshot of the atomicity scenario. -/
def c4_base : EksSnapshot :=
  { AccountName := .vStr "acct", AccountID := .vStr "A", ClusterID := .vStr "c1",
    ClusterName := .vStr "c1", Status := .vStr "ACTIVE", KubernetesVersion := .vStr "1.30",
    Provider := .vStr "AWS", ClusterSecurityGroup := .vStr "sg-1",
    SupportPeriod := .vStr "Standard", Addons := .vList [], Tags := .vDict [] }

/-- Five stored EKS rows, clusters c1..c5 of account A. -/
def c4_table : List Row :=
  [eksInsertRow 5 c4_base,
   eksInsertRow 5 { c4_base with ClusterName := .vStr "c2", ClusterID := .vStr "c2" },
   eksInsertRow 5 { c4_base with ClusterName := .vStr "c3", ClusterID := .vStr "c3" },
   eksInsertRow 5 { c4_base with ClusterName := .vStr "c4", ClusterID := .vStr "c4" },
   eksInsertRow 5 { c4_base with ClusterName := .vStr "c5", ClusterID := .vStr "c5" }]

/-- Five incoming snapshots whose Status all differ from storage. -/
def c4_data : List EksSnapshot :=
  [{ c4_base with Status := .vStr "X" },
   { c4_base with ClusterName := .vStr "c2", ClusterID := .vStr "c2", Status := .vStr "X" },
   { c4_base with ClusterName := .vStr "c3", ClusterID := .vStr "c3", Status := .vStr "X" },
   { c4_base with ClusterName := .vStr "c4", ClusterID := .vStr "c4", Status := .vStr "X" },
   { c4_base with ClusterName := .vStr "c5", ClusterID := .vStr "c5", Status := .vStr "X" }]

/-- The batch whose third UPDATE (cursor statement 3, after the SELECT at 0
and the updates at 1, 2) raises. -/
def c4_run : EngineOutcome :=
  insert_or_update_eks_data (fun n => decide (n = 3)) 30 (some []) (some c4_table) c4_data

/-- RDS snapshot for the no-diff scenario. -/
def c6_rds_snap : RdsSnapshot :=
  { AccountName := .vStr "acct", AccountID := .vStr "666", DbInstanceId := .vStr "db-6",
    DbName := .vStr "mydb", EngineType := .vStr "mysql", EngineVersion := .vStr "8",
    StorageSize := .vInt 50, InstanceType := .vStr "db.t3.small",
    Status := .vStr "available", Region := .vStr "us-east-1", Endpoint := .vStr "ep6",
    Port := .vInt 3306, HasReplica := .vBool false }

/-- Stored table equal to the incoming RDS snapshot. -/
def c6_rds_table : List Row := [rdsInsertRow 5 c6_rds_snap]

/-- Reconciling the identical RDS snapshot. -/
def c6_rds_run : EngineOutcome :=
  insert_or_update_rds_data (fun _ => false) 20 (some []) (some c6_rds_table) [c6_rds_snap]

/-- EKS snapshot for the no-diff scenario. -/
def c6_eks_snap : EksSnapshot :=
  { AccountName := .vStr "acct", AccountID := .vStr "666", ClusterID := .vStr "c6",
    ClusterName := .vStr "c6", Status := .vStr "ACTIVE", KubernetesVersion := .vStr "1.30",
    Provider := .vStr "AWS", ClusterSecurityGroup := .vStr "sg-6",
    SupportPeriod := .vStr "Standard", Addons := .vList ["vpc-cni"], Tags := .vDict [] }

/-- Stored table equal to the incoming EKS snapshot. -/
def c6_eks_table : List Row := [eksInsertRow 5 c6_eks_snap]

/-- Reconciling the identical EKS snapshot. -/
def c6_eks_run : EngineOutcome :=
  insert_or_update_eks_data (fun _ => false) 20 (some []) (some c6_eks_table) [c6_eks_snap]

/-- Lambda snapshot for the no-diff scenario. -/
def c6_lam_snap : LambdaSnapshot :=
  { AccountName := .vStr "acct", AccountID := .vStr "666", FunctionID := .vStr "f6",
    FunctionName := .vStr "f6", Description := .vStr "N/A", Handler := .vStr "main.handler",
    Runtime := .vStr "python3.11", MemorySize := .vInt 128, Timeout := .vInt 3,
    Role := .vStr "r6", Environment := .vInt 0, Triggers := .vInt 0,
    VPCConfig := .vStr "N/A", Region := .vStr "us-east-1", Tags := .vDict [] }

/-- Stored table equal to the incoming Lambda snapshot. -/
def c6_lam_table : List Row := [lambdaInsertRow 5 c6_lam_snap]

/-- Reconciling the identical Lambda snapshot. -/
def c6_lam_run : EngineOutcome :=
  insert_or_update_lambda_data (fun _ => false) 20 (some []) (some c6_lam_table) [c6_lam_snap]

/-- Athena snapshot for the no-diff scenario. -/
def c6_ath_snap : AthenaSnapshot :=
  { AccountName := .vStr "acct", AccountID := .vStr "666", QueryId := .vStr "q-6",
    QueryName := .vStr "Query-q-6", Domain := .vStr "d6", Description := .vStr "N/A",
    Database := .vStr "d6", TablesUsed := .vStr "N/A", ExecutionDuration := .vRat 1,
    ExecutionFrequency := .vStr "On-demand", Owner := .vStr "primary",
    Region := .vStr "us-east-1" }

/-- Stored table equal to the incoming Athena snapshot. -/
def c6_ath_table : List Row := [athenaInsertRow 5 c6_ath_snap]

/-- Reconciling the identical Athena snapshot. -/
def c6_ath_run : EngineOutcome :=
  insert_or_update_athena_data (fun _ => false) 20 1000 (some []) (some c6_ath_table)
    [c6_ath_snap]

/-- Stored Athena event at delta 900 from the probe time 1000. -/
def c7_carol : CtEvent := ⟨"e1", 100, "X", "athena.amazonaws.com", "carol", "q1", "ATHENA", "us-east-1", ""⟩

/-- Stored Athena event at delta 100 from the probe time 1000: the closest. -/
def c7_dave : CtEvent := ⟨"e2", 900, "Y", "athena.amazonaws.com", "dave", "q1", "ATHENA", "us-east-1", ""⟩

/-- The stored cloudtrail_events table of the C7 witness. -/
def c7_events : List CtEvent := [c7_carol, c7_dave]

/-- A CloudTrail event inserted twice in the C8 witness. -/
def c8_ev : CtEvent :=
  ⟨"ev-1", 50, "CreateDBInstance", "rds.amazonaws.com", "alice", "db-1", "RDS", "us-east-1", ""⟩

/-- A 600-character database name. -/
def c9_longName : String := ⟨List.replicate 600 'a'⟩

/-- Raw RDS record whose DBName is 600 characters long. -/
def c9_raw : RawRdsInstance :=
  { dbInstanceIdentifier := "db-9", dbName := some c9_longName, engine := "postgres",
    engineVersion := none, allocatedStorage := none, dbInstanceClass := "db.t3.micro",
    dbInstanceStatus := "available", endpoint := none,
    readReplicaDBInstanceIdentifiers := [] }

/-- Raw Athena query execution for the C9 witness. -/
def c9w_qe : RawQueryExecution :=
  { queryExecutionId := "abc123", query := some "select x from t", database := some "db",
    totalExecutionTimeInMillis := some 2000, state := some "SUCCEEDED",
    workGroup := some "primary" }

/-- The snapshot `extract_query_data` produces from `c9w_qe`. -/
def c9w_snap : AthenaSnapshot :=
  { AccountName := .vStr "acct", AccountID := .vStr "111", QueryId := .vStr "abc123",
    QueryName := .vStr "Query-abc123", Domain := .vStr "db",
    Description := .vStr "select x from t", Database := .vStr "db",
    TablesUsed := .vStr "T",
    ExecutionDuration := .vRat (((2000 : Int) : ℚ) / 1000),
    ExecutionFrequency := .vStr "On-demand", Owner := .vStr "primary",
    Region := .vStr "us-east-1" }

/-- RDS snapshot of account A for the shared-natural-id scenario. -/
def c10_rds_snapA : RdsSnapshot :=
  { AccountName := .vStr "acct", AccountID := .vStr "A", DbInstanceId := .vStr "db-1",
    DbName := .vStr "mydb", EngineType := .vStr "mysql", EngineVersion := .vStr "8",
    StorageSize := .vInt 50, InstanceType := .vStr "db.t3.small",
    Status := .vStr "available", Region := .vStr "us-east-1", Endpoint := .vStr "ep",
    Port := .vInt 3306, HasReplica := .vBool false }

/-- Applying the RDS UPDATE for db-1 to two rows that share the natural id
under accounts A and B. -/
def c10_rds_upd : List Row :=
  rdsApplyUpdate 99 (.vStr "db-1") [("status", .vStr "stopped")]
    [rdsInsertRow 5 c10_rds_snapA,
     rdsInsertRow 5 { c10_rds_snapA with AccountID := .vStr "B" }]

/-- EKS snapshot of account A, cluster c1. -/
def c10_eks_snapA : EksSnapshot :=
  { AccountName := .vStr "acct", AccountID := .vStr "A", ClusterID := .vStr "c1",
    ClusterName := .vStr "c1", Status := .vStr "ACTIVE", KubernetesVersion := .vStr "1.30",
    Provider := .vStr "AWS", ClusterSecurityGroup := .vStr "sg-1",
    SupportPeriod := .vStr "Standard", Addons := .vList [], Tags := .vDict [] }

/-- Two stored EKS rows sharing clustername c1 under accounts A and B. -/
def c10_eks_table : List Row :=
  [eksInsertRow 5 c10_eks_snapA, eksInsertRow 5 { c10_eks_snapA with AccountID := .vStr "B" }]

/-- Reconciling a status change intended for identity (c1, A) only. -/
def c10_eks_run : EngineOutcome :=
  insert_or_update_eks_data (fun _ => false) 30 (some []) (some c10_eks_table)
    [{ c10_eks_snapA with Status := .vStr "DELETING" }]

/-- Lambda snapshot of account A, function f1. -/
def c10_lam_snapA : LambdaSnapshot :=
  { AccountName := .vStr "acct", AccountID := .vStr "A", FunctionID := .vStr "f1",
    FunctionName := .vStr "f1", Description := .vStr "N/A", Handler := .vStr "main.handler",
    Runtime := .vStr "python3.11", MemorySize := .vInt 128, Timeout := .vInt 3,
    Role := .vStr "r1", Environment := .vInt 0, Triggers := .vInt 0,
    VPCConfig := .vStr "N/A", Region := .vStr "us-east-1", Tags := .vDict [] }

/-- Two stored Lambda rows sharing functionname f1 under accounts A and B. -/
def c10_lam_table : List Row :=
  [lambdaInsertRow 5 c10_lam_snapA,
   lambdaInsertRow 5 { c10_lam_snapA with AccountID := .vStr "B" }]

/-- Reconciling a runtime change intended for identity (f1, A) only. -/
def c10_lam_run : EngineOutcome :=
  insert_or_update_lambda_data (fun _ => false) 30 (some []) (some c10_lam_table)
    [{ c10_lam_snapA with Runtime := .vStr "python3.12" }]

/-- Athena snapshot of account A, query q1. -/
def c10_ath_snapA : AthenaSnapshot :=
  { AccountName := .vStr "acct", AccountID := .vStr "A", QueryId := .vStr "q1",
    QueryName := .vStr "Query-q1", Domain := .vStr "d1", Description := .vStr "N/A",
    Database := .vStr "d1", TablesUsed := .vStr "N/A", ExecutionDuration := .vRat 1,
    ExecutionFrequency := .vStr "On-demand", Owner := .vStr "primary",
    Region := .vStr "us-east-1" }

/-- Two stored Athena rows sharing query_id q1 under accounts A and B. -/
def c10_ath_table : List Row :=
  [athenaInsertRow 5 c10_ath_snapA,
   athenaInsertRow 5 { c10_ath_snapA with AccountID := .vStr "B" }]

/-- Reconciling a domain change intended for identity (q1, A) only. -/
def c10_ath_run : EngineOutcome :=
  insert_or_update_athena_data (fun _ => false) 30 1000 (some []) (some c10_ath_table)
    [{ c10_ath_snapA with Domain := .vStr "d2" }]

theorem charListLe_total : ∀ a b, charListLe a b = true ∨ charListLe b a = true := by
  intro a
  induction a with
  | nil => intro b; left; rfl
  | cons x xs ih =>
      intro b
      cases b with
      | nil => right; rfl
      | cons y ys =>
          by_cases h1 : x.toNat < y.toNat
          · left; simp [charListLe, h1]
          · by_cases h2 : y.toNat < x.toNat
            · right; simp [charListLe, h2]
            · rcases ih ys with h | h
              · left; simp [charListLe, h1, h2, h]
              · right; simp [charListLe, h1, h2, h]

theorem charListLe_antisymm : ∀ a b, charListLe a b = true → charListLe b a = true → a = b := by
  intro a
  induction a with
  | nil =>
      intro b _ hba
      cases b with
      | nil => rfl
      | cons y ys => simp [charListLe] at hba
  | cons x xs ih =>
      intro b hab hba
      cases b with
      | nil => simp [charListLe] at hab
      | cons y ys =>
          by_cases h1 : x.toNat < y.toNat
          · exfalso
            have : ¬ y.toNat < x.toNat := by omega
            simp [charListLe, this, Nat.lt_asymm h1] at hba
            omega
          · by_cases h2 : y.toNat < x.toNat
            · exfalso; simp [charListLe, h1, h2] at hab
            · have hx : x = y := by
                have : x.toNat = y.toNat := by omega
                exact Char.eq_of_val_eq (UInt32.ext this)
              subst hx
              simp [charListLe, h1, h2] at hab hba
              exact congrArg (x :: ·) (ih ys hab hba)

theorem charListLe_trans : ∀ a b c, charListLe a b = true → charListLe b c = true →
    charListLe a c = true := by
  intro a
  induction a with
  | nil => intro b c _ _; rfl
  | cons x xs ih =>
      intro b c hab hbc
      cases b with
      | nil => simp [charListLe] at hab
      | cons y ys =>
          cases c with
          | nil => simp [charListLe] at hbc
          | cons z zs =>
              by_cases hxy : x.toNat < y.toNat
              · by_cases hyz : y.toNat < z.toNat
                · simp [charListLe, show x.toNat < z.toNat by omega]
                · by_cases hzy : z.toNat < y.toNat
                  · simp [charListLe, hyz, hzy] at hbc
                  · simp [charListLe, show x.toNat < z.toNat by omega]
              · by_cases hyx : y.toNat < x.toNat
                · simp [charListLe, hxy, hyx] at hab
                · by_cases hyz : y.toNat < z.toNat
                  · simp [charListLe, show x.toNat < z.toNat by omega]
                  · by_cases hzy : z.toNat < y.toNat
                    · simp [charListLe, hyz, hzy] at hbc
                    · have hxz : ¬ x.toNat < z.toNat := by omega
                      have hzx : ¬ z.toNat < x.toNat := by omega
                      simp [charListLe, hxy, hyx] at hab
                      simp [charListLe, hyz, hzy] at hbc
                      simp [charListLe, hxz, hzx]
                      exact ih ys zs hab hbc

theorem insertStr_perm (a : String) : ∀ l : List String, (insertStr a l).Perm (a :: l) := by
  intro l
  induction l with
  | nil => simp [insertStr]
  | cons b bs ih =>
      by_cases h : pyStrLe a b = true
      · simp [insertStr, h]
      · simp only [insertStr, h, Bool.false_eq_true, if_false]
        exact (ih.cons b).trans (List.Perm.swap a b bs)

theorem pySorted_perm : ∀ l : List String, (pySorted l).Perm l := by
  intro l
  induction l with
  | nil => simp [pySorted]
  | cons x xs ih =>
      simp only [pySorted, List.foldr]
      exact (insertStr_perm x _).trans (List.Perm.cons x ih)

theorem insertStr_sorted (a : String) : ∀ l : List String, l.Sorted strLe →
    (insertStr a l).Sorted strLe := by
  intro l
  induction l with
  | nil => intro _; simp [insertStr, List.Sorted]
  | cons b bs ih =>
      intro hs
      rw [List.sorted_cons] at hs
      by_cases h : pyStrLe a b = true
      · simp only [insertStr, h, if_true]
        rw [List.sorted_cons]
        constructor
        · intro x hx
          rcases List.mem_cons.mp hx with hx | hx
          · subst hx; exact h
          · exact charListLe_trans _ _ _ h (hs.1 x hx)
        · rw [List.sorted_cons]; exact hs
      · simp only [insertStr, h, Bool.false_eq_true, if_false]
        rw [List.sorted_cons]
        constructor
        · intro x hx
          have hx2 := List.mem_cons.mp ((insertStr_perm a bs).mem_iff.mp hx)
          rcases hx2 with hx2 | hx2
          · rcases charListLe_total a.data b.data with ht | ht
            · exact absurd ht h
            · exact hx2 ▸ ht
          · exact hs.1 x hx2
        · exact ih hs.2

theorem pySorted_sorted : ∀ l : List String, (pySorted l).Sorted strLe := by
  intro l
  induction l with
  | nil => simp [pySorted, List.Sorted]
  | cons x xs ih => exact insertStr_sorted x _ ih

theorem pySorted_eq_of_perm {l₁ l₂ : List String} (h : l₁.Perm l₂) :
    pySorted l₁ = pySorted l₂ := by
  haveI : IsAntisymm String strLe :=
    ⟨fun a b hab hba => congrArg String.mk (charListLe_antisymm a.data b.data hab hba)⟩
  exact List.eq_of_perm_of_sorted
    ((pySorted_perm l₁).trans (h.trans (pySorted_perm l₂).symm))
    (pySorted_sorted l₁) (pySorted_sorted l₂)

theorem selectMinBy_go (key : CtEvent → Int) :
    ∀ (l : List CtEvent) (b : CtEvent), ∃ m,
      l.foldl (minStep key) (some b) = some m ∧ (m = b ∨ m ∈ l) ∧ key m ≤ key b ∧
      ∀ x ∈ l, key m ≤ key x := by
  intro l
  induction l with
  | nil => intro b; exact ⟨b, rfl, Or.inl rfl, le_refl _, by simp⟩
  | cons r rest ih =>
      intro b
      by_cases h : key r < key b
      · obtain ⟨m, hm, hmem, hkey, hall⟩ := ih r
        refine ⟨m, ?_, ?_, ?_, ?_⟩
        · simpa [minStep, h] using hm
        · rcases hmem with rfl | hmem
          · exact Or.inr (List.mem_cons_self _ _)
          · exact Or.inr (List.mem_cons_of_mem _ hmem)
        · exact le_trans hkey (le_of_lt h)
        · intro x hx
          rcases List.mem_cons.mp hx with rfl | hx
          · exact hkey
          · exact hall x hx
      · obtain ⟨m, hm, hmem, hkey, hall⟩ := ih b
        refine ⟨m, ?_, ?_, hkey, ?_⟩
        · simpa [minStep, h] using hm
        · rcases hmem with rfl | hmem
          · exact Or.inl rfl
          · exact Or.inr (List.mem_cons_of_mem _ hmem)
        · intro x hx
          rcases List.mem_cons.mp hx with rfl | hx
          · exact le_trans hkey (not_lt.mp h)
          · exact hall x hx

theorem selectMinBy_spec (key : CtEvent → Int) (l : List CtEvent) (h : l ≠ []) :
    ∃ m, selectMinBy key l = some m ∧ m ∈ l ∧ ∀ x ∈ l, key m ≤ key x := by
  cases l with
  | nil => exact absurd rfl h
  | cons r rest =>
      obtain ⟨m, hm, hmem, hkey, hall⟩ := selectMinBy_go key rest r
      refine ⟨m, by simpa [selectMinBy, minStep] using hm, ?_, ?_⟩
      · rcases hmem with rfl | hmem
        · exact List.mem_cons_self _ _
        · exact List.mem_cons_of_mem _ hmem
      · intro x hx
        rcases List.mem_cons.mp hx with rfl | hx
        · exact hkey
        · exact hall x hx

theorem selectMinBy_eq_some (key : CtEvent → Int) (l : List CtEvent) (m : CtEvent)
    (h : selectMinBy key l = some m) : m ∈ l ∧ ∀ x ∈ l, key m ≤ key x := by
  cases l with
  | nil => simp [selectMinBy] at h
  | cons r rest =>
      obtain ⟨m2, hm2, hmem, hall⟩ := selectMinBy_spec key (r :: rest) (by simp)
      rw [h] at hm2
      cases Option.some.inj hm2
      exact ⟨hmem, hall⟩

theorem ctInsertStep_countId (t : List CtEvent) (n : Nat) (e : CtEvent) (id : String) :
    countId (ctInsertStep (t, n) e).1 id =
      if countId t id = 0 ∧ e.event_id = id then 1 else countId t id := by
  by_cases hmem : t.any (fun r => r.event_id == e.event_id)
  · have hpos : countId t e.event_id ≠ 0 := by
      simp only [List.any_eq_true, beq_iff_eq] at hmem
      obtain ⟨r, hr, hrid⟩ := hmem
      simp only [countId, ne_eq, List.length_eq_zero, List.filter_eq_nil_iff]
      push_neg
      exact ⟨r, hr, by simp [hrid]⟩
    simp only [ctInsertStep, hmem, if_true]
    by_cases hid : e.event_id = id
    · subst hid; simp [hpos]
    · by_cases hz : countId t id = 0 <;> simp [hz, hid]
  · have hfil : List.filter (fun r => r.event_id == e.event_id) t = [] := by
      simp only [List.any_eq_true, beq_iff_eq] at hmem
      push_neg at hmem
      simp only [List.filter_eq_nil_iff]
      intro r hr
      simp [hmem r hr]
    have hzero : countId t e.event_id = 0 := by simp [countId, hfil]
    simp only [ctInsertStep, hmem, Bool.false_eq_true, if_false]
    by_cases hid : e.event_id = id
    · subst hid
      simp [countId, List.filter_append, hfil, hzero]
    · have hframe : countId (t ++ [e]) id = countId t id := by
        simp [countId, List.filter_append, hid]
      rw [hframe]
      by_cases hz : countId t id = 0 <;> simp [hz, hid]

theorem ctLoop_countId_le (id : String) :
    ∀ (es : List CtEvent) (t : List CtEvent) (n : Nat), countId t id ≤ 1 →
      countId (es.foldl ctInsertStep (t, n)).1 id ≤ 1 := by
  intro es
  induction es with
  | nil => intro t n h; simpa using h
  | cons e rest ih =>
      intro t n h
      have hstep := ctInsertStep_countId t n e id
      simp only [List.foldl_cons]
      have : ctInsertStep (t, n) e = ((ctInsertStep (t, n) e).1, (ctInsertStep (t, n) e).2) := rfl
      rw [this]
      apply ih
      rw [hstep]
      by_cases hc : countId t id = 0 ∧ e.event_id = id
      · simp [hc]
      · simp only [hc, if_false]; exact h

theorem ctLoop_countId_pos (id : String) :
    ∀ (es : List CtEvent) (t : List CtEvent) (n : Nat),
      (∃ e ∈ es, e.event_id = id) ∨ 1 ≤ countId t id →
      1 ≤ countId (es.foldl ctInsertStep (t, n)).1 id := by
  intro es
  induction es with
  | nil =>
      intro t n h
      rcases h with ⟨e, he, _⟩ | h
      · exact absurd he (List.not_mem_nil e)
      · simpa using h
  | cons e rest ih =>
      intro t n h
      have hstep := ctInsertStep_countId t n e id
      simp only [List.foldl_cons]
      have heq : ctInsertStep (t, n) e = ((ctInsertStep (t, n) e).1, (ctInsertStep (t, n) e).2) := rfl
      rw [heq]
      apply ih
      by_cases hc : countId t id = 0 ∧ e.event_id = id
      · right; rw [hstep]; simp [hc]
      · rcases h with ⟨e2, he2, hid2⟩ | h
        · rcases List.mem_cons.mp he2 with rfl | he2
          · right
            rw [hstep]
            simp only [hc, if_false]
            rcases Nat.eq_zero_or_pos (countId t id) with hz | hp
            · exact absurd ⟨hz, hid2⟩ hc
            · exact hp
          · left; exact ⟨e2, he2, hid2⟩
        · right
          rw [hstep]
          simp only [hc, if_false]
          exact h

theorem pySlice_len (s : String) (n : Nat) : (pySlice s n).length ≤ n := by
  have h1 : (pySlice s n).length = (s.data.take n).length := rfl
  rw [h1, List.length_take]
  exact min_le_left _ _

theorem athenaSnapshotOf_bounds (qe : RawQueryExecution) (an aid reg : String)
    (tu : List String) :
    vStrLen (athenaSnapshotOf qe an aid reg tu).AccountName ≤ 255
    ∧ vStrLen (athenaSnapshotOf qe an aid reg tu).AccountID ≤ 20
    ∧ vStrLen (athenaSnapshotOf qe an aid reg tu).QueryId ≤ 255
    ∧ vStrLen (athenaSnapshotOf qe an aid reg tu).QueryName ≤ 255
    ∧ vStrLen (athenaSnapshotOf qe an aid reg tu).Domain ≤ 255
    ∧ vStrLen (athenaSnapshotOf qe an aid reg tu).Description ≤ 500
    ∧ vStrLen (athenaSnapshotOf qe an aid reg tu).Database ≤ 255
    ∧ vStrLen (athenaSnapshotOf qe an aid reg tu).TablesUsed ≤ 500
    ∧ vStrLen (athenaSnapshotOf qe an aid reg tu).ExecutionFrequency ≤ 100
    ∧ vStrLen (athenaSnapshotOf qe an aid reg tu).Owner ≤ 255
    ∧ vStrLen (athenaSnapshotOf qe an aid reg tu).Region ≤ 50 := by
  refine ⟨pySlice_len _ _, pySlice_len _ _, pySlice_len _ _, pySlice_len _ _,
    pySlice_len _ _, ?_, pySlice_len _ _, ?_, pySlice_len _ _, pySlice_len _ _,
    pySlice_len _ _⟩
  · show vStrLen (.vStr (if qe.query.getD "" ≠ "" then pySlice (qe.query.getD "") 500
      else "N/A")) ≤ 500
    split
    · exact pySlice_len _ _
    · decide
  · show vStrLen (.vStr (if tu ≠ [] then pySlice (pyJoin ", " tu) 500 else "N/A")) ≤ 500
    split
    · exact pySlice_len _ _
    · decide

/-- Claim C1: reconciling the snapshot (DbInstanceId db-1, AccountID 111,
Status available, EngineType postgres) against empty storage returns
processed 1, inserted 1, updated 0 — which holds — and the claim then
asserts the rerun with Status stopped returns inserted 0, updated 1 with
one ChangeLogEntry for `status`.  The code instead re-inserts: the rerun
evaluates to processed 1, inserted 1, updated 0 with an empty change log
and a duplicated row, because line 164 of rds_functions.py reads the
stored dict with key `account_id` while the column is `accountid`. -/
theorem claim_C1_rds_rerun_eval :
    c1_run1.result = ⟨none, 1, 1, 0⟩ ∧ c1_run1.changeLog = []
    ∧ c1_run1.table = [rdsInsertRow 10 c1_snap1]
    ∧ c1_run2.result = ⟨none, 1, 1, 0⟩ ∧ c1_run2.changeLog = []
    ∧ c1_run2.table = [rdsInsertRow 10 c1_snap1, rdsInsertRow 20 c1_snap2] := by
  decide

/-- Claim C2: the claim says the identity-changed insert branch is never
taken when the lookup found a row on well-formed stored data.  That
holds for the Athena, EKS and Lambda engines (first three conjuncts:
any row a lookup returns agrees with the snapshot on the compared
columns, so the branch test is false), but fails for RDS: on the
well-formed one-row table `c2_table` the branch test is true and the
engine inserts a duplicate without updating the old row, incrementing
`inserted` (last conjunct). -/
theorem claim_C2_identity_guard :
    (∀ (t : List Row) (s : AthenaSnapshot) (r : Row),
        athenaLookupExisting t (s.QueryId, s.AccountID) = some r →
        athenaIdentityChanged r s = false)
    ∧ (∀ (t : List Row) (s : EksSnapshot) (r : Row),
        eksLookupExisting t (s.ClusterName, s.AccountID) = some r →
        eksIdentityChanged r s = false)
    ∧ (∀ (t : List Row) (s : LambdaSnapshot) (r : Row),
        lambdaLookupExisting t (s.FunctionName, s.AccountID) = some r →
        lambdaIdentityChanged r s = false)
    ∧ (rdsLookupExisting c2_table (c2_snap.DbInstanceId, c2_snap.AccountID) = some c2_row
       ∧ rdsIdentityChanged c2_row c2_snap = true
       ∧ c2_run.result = ⟨none, 1, 1, 0⟩
       ∧ c2_run.table = c2_table ++ [rdsInsertRow 20 c2_snap]) := by
  refine ⟨?_, ?_, ?_, by decide, by decide, by decide, by decide⟩
  · intro t s r h
    have hp := List.find?_some h
    simp only [Bool.and_eq_true, decide_eq_true_eq] at hp
    simp [athenaIdentityChanged, hp.1, hp.2]
  · intro t s r h
    have hp := List.find?_some h
    simp only [Bool.and_eq_true, decide_eq_true_eq] at hp
    simp [eksIdentityChanged, hp.1, hp.2]
  · intro t s r h
    have hp := List.find?_some h
    simp only [Bool.and_eq_true, decide_eq_true_eq] at hp
    simp [lambdaIdentityChanged, hp.1, hp.2]

/-- Witness for claim C2: the Athena conjunct applied to a concrete
one-row table whose lookup succeeds. -/
theorem claim_C2_identity_guard_witness :
    athenaIdentityChanged c2w_row c2w_snap = false :=
  claim_C2_identity_guard.1 [c2w_row] c2w_snap c2w_row (by decide)

/-- Claim C3: the claim describes all three resolvers returning the top
matching actor (filtered by the field map, falling back to the most
recent event for unmapped fields, unknown with no connection or no
match).  The RDS resolver does this (first four conjuncts), but the EKS
and Lambda resolvers call `fetchone()` twice on a LIMIT 1 cursor, so
they return "unknown" even when a matching event with a known actor is
stored (last two conjuncts). -/
theorem claim_C3_resolvers_eval :
    get_instance_changed_by none "db-1" "status" = "unknown"
    ∧ get_instance_changed_by (some c3_rds_events) "db-1" "status" = "bob"
    ∧ get_instance_changed_by (some c3_rds_events) "db-1" "zzz" = "carol"
    ∧ get_instance_changed_by (some []) "db-1" "status" = "unknown"
    ∧ get_cluster_changed_by (some c3_eks_events) "c1" "status" = "unknown"
    ∧ get_function_changed_by (some c3_lam_events) "f1" "runtime" = "unknown" := by
  decide

/-- Claim C4: a mid-batch exception rolls the resource-type transaction
back — the table returned equals the initial one and the result carries
an error with processed, inserted and updated all 0 — and the engine's
connection is closed on every exit path that opened one.  Stated for the
RDS and EKS engines over every failure oracle, time, resolver
connection, stored table and batch. -/
theorem claim_C4_rollback :
    (∀ (failAt : Nat → Bool) (now : Int) (ctConn : Option (List CtEvent)) (t : List Row)
        (data : List RdsSnapshot) (msg : String),
        (insert_or_update_rds_data failAt now ctConn (some t) data).result.error = some msg →
        (insert_or_update_rds_data failAt now ctConn (some t) data).table = t
        ∧ (insert_or_update_rds_data failAt now ctConn (some t) data).result.processed = 0
        ∧ (insert_or_update_rds_data failAt now ctConn (some t) data).result.inserted = 0
        ∧ (insert_or_update_rds_data failAt now ctConn (some t) data).result.updated = 0)
    ∧ (∀ (failAt : Nat → Bool) (now : Int) (ctConn : Option (List CtEvent)) (t : List Row)
        (data : List RdsSnapshot), data ≠ [] →
        (insert_or_update_rds_data failAt now ctConn (some t) data).connClosed = true)
    ∧ (∀ (failAt : Nat → Bool) (now : Int) (ctConn : Option (List CtEvent)) (t : List Row)
        (data : List EksSnapshot) (msg : String),
        (insert_or_update_eks_data failAt now ctConn (some t) data).result.error = some msg →
        (insert_or_update_eks_data failAt now ctConn (some t) data).table = t
        ∧ (insert_or_update_eks_data failAt now ctConn (some t) data).result.processed = 0
        ∧ (insert_or_update_eks_data failAt now ctConn (some t) data).result.inserted = 0
        ∧ (insert_or_update_eks_data failAt now ctConn (some t) data).result.updated = 0)
    ∧ (∀ (failAt : Nat → Bool) (now : Int) (ctConn : Option (List CtEvent)) (t : List Row)
        (data : List EksSnapshot), data ≠ [] →
        (insert_or_update_eks_data failAt now ctConn (some t) data).connClosed = true) := by
  refine ⟨?_, ?_, ?_, ?_⟩
  · intro failAt now ctConn t data msg h
    by_cases hd : data = []
    · subst hd; simp [insert_or_update_rds_data] at h
    · simp only [insert_or_update_rds_data, if_neg hd] at h ⊢
      by_cases h0 : failAt 0 = true
      · rw [if_pos h0] at h ⊢
        exact ⟨rfl, rfl, rfl, rfl⟩
      · rw [if_neg h0] at h ⊢
        cases hloop : rdsLoop failAt now ctConn t ⟨t, [], 0, 0, 0, 1⟩ data with
        | ok st => rw [hloop] at h; simp at h
        | error l => exact ⟨rfl, rfl, rfl, rfl⟩
  · intro failAt now ctConn t data hd
    simp only [insert_or_update_rds_data, if_neg hd]
    by_cases h0 : failAt 0 = true
    · rw [if_pos h0]
    · rw [if_neg h0]
      cases hloop : rdsLoop failAt now ctConn t ⟨t, [], 0, 0, 0, 1⟩ data with
      | ok st => rfl
      | error l => rfl
  · intro failAt now ctConn t data msg h
    by_cases hd : data = []
    · subst hd; simp [insert_or_update_eks_data] at h
    · simp only [insert_or_update_eks_data, if_neg hd] at h ⊢
      by_cases h0 : failAt 0 = true
      · rw [if_pos h0] at h ⊢
        exact ⟨rfl, rfl, rfl, rfl⟩
      · rw [if_neg h0] at h ⊢
        cases hloop : eksLoop failAt now ctConn t ⟨t, [], 0, 0, 0, 1⟩ data with
        | ok st => rw [hloop] at h; simp at h
        | error l => exact ⟨rfl, rfl, rfl, rfl⟩
  · intro failAt now ctConn t data hd
    simp only [insert_or_update_eks_data, if_neg hd]
    by_cases h0 : failAt 0 = true
    · rw [if_pos h0]
    · rw [if_neg h0]
      cases hloop : eksLoop failAt now ctConn t ⟨t, [], 0, 0, 0, 1⟩ data with
      | ok st => rfl
      | error l => rfl

/-- Witness for claim C4: the batch of five differing EKS records whose
third UPDATE raises leaves the stored table untouched, returns the error
descriptor with zero counters, and closes the connection. -/
theorem claim_C4_rollback_witness :
    c4_run.result.error = some "exception" ∧ c4_run.table = c4_table
    ∧ c4_run.result.processed = 0 ∧ c4_run.result.inserted = 0 ∧ c4_run.result.updated = 0
    ∧ c4_run.connClosed = true := by
  have h := claim_C4_rollback.2.2.1 (fun n => decide (n = 3)) 30 (some []) c4_table c4_data
    "exception" (by decide)
  have hc := claim_C4_rollback.2.2.2 (fun n => decide (n = 3)) 30 (some []) c4_table c4_data
    (by decide)
  exact ⟨by decide, h.1, h.2.1, h.2.2.1, h.2.2.2, hc⟩

/-- Claim C5: reconciliation field comparison is order-independent for
list-valued fields — any permutation of the stripped stringified
elements compares equal, in particular stored ["a","b"] against incoming
["b","a"], also when the stored value is the comma-separated string
"a,b" — and scalars compare by string coercion, so integer 0 equals
string "0". -/
theorem claim_C5_comparison :
    (∀ os ns : List String, (os.map pyStrip).Perm (ns.map pyStrip) →
        normalize_list_comparison (.vList os) (.vList ns) = true)
    ∧ normalize_list_comparison (.vList ["a", "b"]) (.vList ["b", "a"]) = true
    ∧ normalize_list_comparison (.vStr "a,b") (.vList ["b", "a"]) = true
    ∧ normalize_list_comparison (.vInt 0) (.vStr "0") = true := by
  refine ⟨?_, by decide, by decide, by decide⟩
  intro os ns h
  show decide (pySorted (os.map pyStrip) = pySorted (ns.map pyStrip)) = true
  rw [pySorted_eq_of_perm h]
  simp

/-- Witness for claim C5: the permutation conjunct applied to ["x","y"]
against ["y","x"]. -/
theorem claim_C5_comparison_witness :
    normalize_list_comparison (.vList ["x", "y"]) (.vList ["y", "x"]) = true :=
  claim_C5_comparison.1 ["x", "y"] ["y", "x"] (by decide)

/-- Claim C6: with the identity key present and no field differing, the
claim says RDS refreshes only last_updated counting the record as
updated, while EKS and Lambda leave the row untouched.  The EKS and
Lambda halves hold (rows and change log unchanged, updated 0), and
Athena is the engine that does the unconditional refresh (updated 1,
last_updated bumped from 5 to 20); but RDS never reaches its refresh
UPDATE: the account_id slip of line 164 routes the identical snapshot to
the insert branch, appending a duplicate row with updated 0. -/
theorem claim_C6_no_diff_eval :
    c6_rds_run.result = ⟨none, 1, 1, 0⟩
    ∧ c6_rds_run.table = c6_rds_table ++ [rdsInsertRow 20 c6_rds_snap]
    ∧ c6_eks_run.result = ⟨none, 1, 0, 0⟩ ∧ c6_eks_run.table = c6_eks_table
    ∧ c6_eks_run.changeLog = []
    ∧ c6_lam_run.result = ⟨none, 1, 0, 0⟩ ∧ c6_lam_run.table = c6_lam_table
    ∧ c6_lam_run.changeLog = []
    ∧ c6_ath_run.result = ⟨none, 1, 0, 1⟩
    ∧ rowGet (c6_ath_run.table.getD 0 []) "last_updated" = .vInt 20
    ∧ rowGet (c6_ath_run.table.getD 0 []) "domain" = .vStr "d6"
    ∧ c6_ath_run.changeLog = [] := by
  decide

/-- Claim C7: the Athena attribution resolver returns "unknown" with no
connection; with a connection it considers exactly the stored ATHENA
events for the query id whose time is within 86400 seconds of the update
time, returns "unknown" when that set is empty, and otherwise returns
the actor of a row whose absolute time delta is minimal over the set
(and such a row is always selected when the set is nonempty). -/
theorem claim_C7_athena_resolver (events : List CtEvent) (query_id : String)
    (update_date : Int) :
    get_query_changed_by none query_id update_date = "unknown"
    ∧ (athenaMatches events query_id update_date = [] →
        get_query_changed_by (some events) query_id update_date = "unknown")
    ∧ (∀ r, athenaSelect events query_id update_date = some r →
        r ∈ athenaMatches events query_id update_date
        ∧ (r.event_time - update_date).natAbs < 86400
        ∧ (∀ x ∈ athenaMatches events query_id update_date,
            (r.event_time - update_date).natAbs ≤ (x.event_time - update_date).natAbs)
        ∧ get_query_changed_by (some events) query_id update_date = r.user_name)
    ∧ (athenaMatches events query_id update_date ≠ [] →
        ∃ r, athenaSelect events query_id update_date = some r) := by
  refine ⟨rfl, ?_, ?_, ?_⟩
  · intro h
    simp [get_query_changed_by, athenaSelect, h, selectMinBy]
  · intro r hr
    obtain ⟨hmem, hall⟩ := selectMinBy_eq_some _ _ _ hr
    refine ⟨hmem, ?_, ?_, ?_⟩
    · have hm2 := hmem
      simp only [athenaMatches, List.mem_filter, Bool.and_eq_true, decide_eq_true_eq,
        beq_iff_eq] at hm2
      exact hm2.2.2
    · intro x hx
      exact_mod_cast hall x hx
    · simp [get_query_changed_by, athenaSelect] at hr ⊢
      rw [hr]
  · intro h
    obtain ⟨m, hm, _, _⟩ := selectMinBy_spec _ _ h
    exact ⟨m, hm⟩

/-- Witness for claim C7: with two stored events at deltas 900 and 100
from the probe time, the resolver returns the closer actor `dave`. -/
theorem claim_C7_athena_resolver_witness :
    get_query_changed_by (some c7_events) "q1" 1000 = "dave" := by
  have h := (claim_C7_athena_resolver c7_events "q1" 1000).2.2.1 c7_dave (by decide)
  exact h.2.2.2

/-- Claim C8: CloudTrailEvent persistence is idempotent on event_id: over
any stored table with at most one row per event id, inserting any batch
containing an event leaves exactly one row with that event's id, keeps
every id's count at most one (the duplicate insert is a no-op), and the
call reports no error. -/
theorem claim_C8_ct_idempotent (t es : List CtEvent) (e : CtEvent)
    (h : ∀ id, countId t id ≤ 1) (he : e ∈ es) :
    (insert_or_update_cloudtrail_events true t es).1.error = none
    ∧ countId (insert_or_update_cloudtrail_events true t es).2 e.event_id = 1
    ∧ (∀ id, countId (insert_or_update_cloudtrail_events true t es).2 id ≤ 1) := by
  have hne : es ≠ [] := by
    intro hx
    subst hx
    exact absurd he (List.not_mem_nil e)
  have hsnd : (insert_or_update_cloudtrail_events true t es).2 =
      (es.foldl ctInsertStep (t, 0)).1 := by
    simp [insert_or_update_cloudtrail_events, hne]
  refine ⟨by simp [insert_or_update_cloudtrail_events, hne], ?_, ?_⟩
  · rw [hsnd]
    have hle := ctLoop_countId_le e.event_id es t 0 (h e.event_id)
    have hge := ctLoop_countId_pos e.event_id es t 0 (Or.inl ⟨e, he, rfl⟩)
    omega
  · intro id
    rw [hsnd]
    exact ctLoop_countId_le id es t 0 (h id)

/-- Witness for claim C8: inserting the same event twice into an empty
table leaves exactly one row with its event id. -/
theorem claim_C8_ct_idempotent_witness :
    countId (insert_or_update_cloudtrail_events true [] [c8_ev, c8_ev]).2 c8_ev.event_id = 1 :=
  (claim_C8_ct_idempotent [] [c8_ev, c8_ev] c8_ev (fun id => by simp [countId])
    (by decide)).2.1

/-- Counterexample to claim C9: the RDS extractor truncates nothing — a
600-character DBName (longer than every limit the claim contemplates,
255, 500 or 20) passes through `extract_rds_data` unchanged. -/
theorem claim_C9_counterexample :
    (extract_rds_data c9_raw "acct" "111" "us-east-1").DbName = .vStr c9_longName
    ∧ c9_longName.length = 600 ∧ ¬ c9_longName.length ≤ 500 := by
  have hlen : c9_longName.length = 600 := by
    have h1 : c9_longName.length = (List.replicate 600 'a').length := rfl
    rw [h1, List.length_replicate]
  exact ⟨rfl, hlen, by omega⟩

/-- Claim C9 as amended: only the Athena extractor truncates its string
fields, to per-field limits (255 for names and ids, 20 for the account
id, 500 for description and tables-used, 100 for the frequency, 50 for
the region); the RDS and Lambda extractors pass strings through
untruncated; and missing optional fields default to "N/A" for strings
and 0 for numeric fields. -/
theorem claim_C9_amended :
    (∀ (qe : RawQueryExecution) (an aid reg : String) (s : AthenaSnapshot),
        extract_query_data qe an aid reg = some s →
        vStrLen s.AccountName ≤ 255 ∧ vStrLen s.AccountID ≤ 20 ∧ vStrLen s.QueryId ≤ 255
        ∧ vStrLen s.QueryName ≤ 255 ∧ vStrLen s.Domain ≤ 255 ∧ vStrLen s.Description ≤ 500
        ∧ vStrLen s.Database ≤ 255 ∧ vStrLen s.TablesUsed ≤ 500
        ∧ vStrLen s.ExecutionFrequency ≤ 100 ∧ vStrLen s.Owner ≤ 255
        ∧ vStrLen s.Region ≤ 50)
    ∧ (∀ (db : RawRdsInstance) (an aid reg : String),
        (extract_rds_data db an aid reg).DbName = .vStr (db.dbName.getD "N/A")
        ∧ (extract_rds_data db an aid reg).EngineVersion = .vStr (db.engineVersion.getD "N/A"))
    ∧ (∀ (db : RawRdsInstance) (an aid reg : String), db.dbName = none →
        (extract_rds_data db an aid reg).DbName = .vStr "N/A")
    ∧ (∀ (db : RawRdsInstance) (an aid reg : String), db.allocatedStorage = none →
        (extract_rds_data db an aid reg).StorageSize = .vStr "N/A")
    ∧ (∀ (f : RawLambdaFunction) (tc : Option Nat) (gc : Option (List (String × String)))
        (an aid reg : String), f.selfConfig.memorySize = none →
        (extract_lambda_data f none tc gc an aid reg).MemorySize = .vInt 0)
    ∧ (∀ (f : RawLambdaFunction) (tc : Option Nat) (gc : Option (List (String × String)))
        (an aid reg : String), f.selfConfig.timeout = none →
        (extract_lambda_data f none tc gc an aid reg).Timeout = .vInt 0) := by
  refine ⟨?_, ?_, ?_, ?_, ?_, ?_⟩
  · intro qe an aid reg s h
    simp only [extract_query_data] at h
    cases hm : athenaTablesUsed (qe.query.getD "") with
    | none => rw [hm] at h; simp at h
    | some tu =>
        rw [hm] at h
        injection h with h2
        subst h2
        exact athenaSnapshotOf_bounds qe an aid reg tu
  · intro db an aid reg
    exact ⟨rfl, rfl⟩
  · intro db an aid reg h
    simp [extract_rds_data, h]
  · intro db an aid reg h
    simp [extract_rds_data, h]
  · intro f tc gc an aid reg h
    simp [extract_lambda_data, h]
  · intro f tc gc an aid reg h
    simp [extract_lambda_data, h]

/-- Witness for claim C9 (amended): the Athena bounds applied to a
concrete query execution whose extraction succeeds. -/
theorem claim_C9_amended_witness :
    extract_query_data c9w_qe "acct" "111" "us-east-1" = some c9w_snap
    ∧ vStrLen c9w_snap.AccountName ≤ 255 ∧ vStrLen c9w_snap.Description ≤ 500 :=
  ⟨by rfl,
   (claim_C9_amended.1 c9w_qe "acct" "111" "us-east-1" c9w_snap (by rfl)).1,
   (claim_C9_amended.1 c9w_qe "acct" "111" "us-east-1" c9w_snap (by rfl)).2.2.2.2.2.1⟩

/-- Claim C10: the RDS, EKS and Lambda UPDATEs match rows by the natural
id alone, so with two stored rows sharing the natural id under accounts
A and B, an update intended for identity (id, A) modifies both rows
(shown on the RDS update application and on full EKS and Lambda runs),
while the Athena UPDATE constrains both query_id and account_id, leaving
account B's row untouched. -/
theorem claim_C10_update_where_eval :
    rowGet (c10_rds_upd.getD 0 []) "status" = .vStr "stopped"
    ∧ rowGet (c10_rds_upd.getD 1 []) "status" = .vStr "stopped"
    ∧ rowGet (c10_rds_upd.getD 1 []) "accountid" = .vStr "B"
    ∧ c10_eks_run.result = ⟨none, 1, 0, 1⟩
    ∧ rowGet (c10_eks_run.table.getD 0 []) "status" = .vStr "DELETING"
    ∧ rowGet (c10_eks_run.table.getD 1 []) "status" = .vStr "DELETING"
    ∧ rowGet (c10_eks_run.table.getD 1 []) "accountid" = .vStr "B"
    ∧ c10_lam_run.result = ⟨none, 1, 0, 1⟩
    ∧ rowGet (c10_lam_run.table.getD 0 []) "runtime" = .vStr "python3.12"
    ∧ rowGet (c10_lam_run.table.getD 1 []) "runtime" = .vStr "python3.12"
    ∧ rowGet (c10_lam_run.table.getD 1 []) "accountid" = .vStr "B"
    ∧ c10_ath_run.result = ⟨none, 1, 0, 1⟩
    ∧ rowGet (c10_ath_run.table.getD 0 []) "domain" = .vStr "d2"
    ∧ rowGet (c10_ath_run.table.getD 1 []) "domain" = .vStr "d1"
    ∧ rowGet (c10_ath_run.table.getD 1 []) "last_updated" = .vInt 5 := by
  decide
